import Mathlib

/-!
Verification of the layered-seed zone-generation core.

Shallow embedding of the JavaScript sources of this repository:

* `runtime/world/SeededRandom.js` — the mulberry32 PRNG (`SR` below);
* `runtime/world/SeedUtil.js`    — `mixSeed` / `seedFromParts`;
* `runtime/world/Freshness.js`   — the anti-repeat weighted sampler;
* `runtime/DepthRules.js`        — milestone unlocks and active-modifier sampling;
* `runtime/world/MapGenerator.js`— the zone generator;
* `runtime/world/SpawnGrid.js`   — the uniform spatial hash;
* `runtime/world/World.js`       — the zone-lifecycle orchestrator;
* `runtime/Bullets.js`           — the per-drop loot seed derivation.

Modelling conventions, used throughout:

* JavaScript numbers are modelled as exact rationals (`ℚ`); every numeric
  literal of the source is read as the exact rational it denotes.  32-bit
  integer operations (`>>> 0`, `| 0`, `Math.imul`, `<<`, `^`, `&`) are
  modelled on `Nat`/`Int` with explicit reduction modulo `2^32`, matching
  the ECMAScript `ToUint32`/`ToInt32` semantics on the exact values.
* The transcendental functions of the ambient `Math` object
  (`Math.cos`, `Math.sin`, `Math.atan2`, the constant `Math.PI`) are pure
  in JavaScript; they are passed to the embedding as an explicit record of
  rational-valued functions (`JsMath`).  No claim depends on their values.
* A comparison `Math.hypot(dx, dy) < r` with `0 ≤ r` is equivalent (over
  the reals) to `dx^2 + dy^2 < r^2`; all distance *comparisons* of the
  source are embedded in this squared form (`distSqLt` / `distSqGt`).
* JavaScript `x || d` (default on falsy) is modelled by `getDF`
  (`0` falls back to the default), and `x ?? d` by `Option.getD`.
* Mutable objects reachable from several places (spawn descriptors,
  active entities) are modelled by index: descriptors live in the arrays
  of the current zone, entities in an id-keyed store, and references are
  indices (`SpawnRef`), so that a flag update is visible to every holder
  of the reference, as it is for the shared JS objects.
-/

/-! ## 32-bit helpers (ECMAScript ToUint32 / ToInt32 on exact values) -/

/-- `n >>> 0` on a natural number. -/
def natU32 (n : Nat) : Nat := n % 4294967296

/-- ECMAScript `ToUint32` of an integer. -/
def toU32 (z : ℤ) : Nat := (z % (4294967296 : ℤ)).toNat

/-- ECMAScript `ToInt32` of an integer. -/
def toI32 (z : ℤ) : ℤ := (z + 2147483648) % 4294967296 - 2147483648

/-- Truncation toward zero, as JS `x | 0` does before the 32-bit wrap. -/
def jsTrunc (q : ℚ) : ℤ := if 0 ≤ q then ⌊q⌋ else -⌊-q⌋

/-- JS `x | 0` on an exact rational value. -/
def jsOr0 (q : ℚ) : ℤ := toI32 (jsTrunc q)

/-- `Math.imul`: 32-bit truncating multiplication (unsigned representative). -/
def imul32 (a b : Nat) : Nat := (a * b) % 4294967296

/-- JS `x || d` for an optional number: `undefined` and `0` fall back. -/
def getDF (o : Option ℚ) (d : ℚ) : ℚ :=
  match o with
  | some v => if v = 0 then d else v
  | none => d

/-! ## `SeededRandom.js` — mulberry32 PRNG -/

/-- The state of one `SeededRandom` instance (`seed` and `state` fields,
both kept in `[0, 2^32)` by the `>>> 0` masks of the source). -/
structure SR where
  seed : Nat
  state : Nat
deriving Repr, DecidableEq

namespace SR

/-- `new SeededRandom(seed)`. -/
def mk' (s : Nat) : SR := ⟨natU32 s, natU32 s⟩

/-- The avalanche part of `next()`: from the advanced state to the 32-bit
output (`t = Math.imul(t ^ t >>> 15, t | 1); t ^= t + Math.imul(t ^ t >>> 7,
t | 61); return ((t ^ t >>> 14) >>> 0)`). -/
def out32 (s : Nat) : Nat :=
  let t1 := imul32 (s ^^^ (s >>> 15)) (s ||| 1)
  let t2 := t1 ^^^ ((t1 + imul32 (t1 ^^^ (t1 >>> 7)) (t1 ||| 61)) % 4294967296)
  (t2 ^^^ (t2 >>> 14)) % 4294967296

/-- `next()`: advance the state by the additive constant and return the
avalanched output normalized to `[0,1)`. -/
def next (g : SR) : ℚ × SR :=
  let st := (g.state + 0x6D2B79F5) % 4294967296
  ((out32 st : ℚ) / 4294967296, ⟨g.seed, st⟩)

/-- `range(min, max)`. -/
def range (g : SR) (mn mx : ℚ) : ℚ × SR :=
  let p := g.next
  (mn + p.1 * (mx - mn), p.2)

/-- `int(min, max)` (inclusive). -/
def int (g : SR) (mn mx : ℚ) : ℤ × SR :=
  let p := g.range mn (mx + 1)
  (⌊p.1⌋, p.2)

/-- `chance(p)`. -/
def chance (g : SR) (p : ℚ) : Bool × SR :=
  let q := g.next
  (q.1 < p, q.2)

/-- `pick(array)`: `null` on an empty array (without consuming the stream),
otherwise `array[int(0, len-1)]`. -/
def pick {α : Type} (g : SR) (l : List α) : Option α × SR :=
  match l with
  | [] => (none, g)
  | _ =>
    let r := g.int 0 ((l.length : ℚ) - 1)
    (if 0 ≤ r.1 then l.get? r.1.toNat else none, r.2)

end SR

/-- `SeededRandom.fromString`: polynomial rolling hash, per-character
`hash = ((hash << 5) - hash) + charCode` reduced to int32, finally `>>> 0`.
(The strings hashed by this repository are ASCII, where `charCodeAt`
agrees with `Char.toNat`.) -/
def strHash (s : String) : Nat :=
  toU32 (s.data.foldl (fun h c => toI32 (toI32 (h * 32) - h + (c.toNat : ℤ))) 0)

/-! ## `SeedUtil.js` -/

/-- `mixSeed(seed, value)`: XOR then a Murmur-style finalizer, all
intermediate results masked to unsigned 32 bit. -/
def mixSeed (s v : Nat) : Nat :=
  let x0 := natU32 s ^^^ natU32 v
  let x1 := imul32 (x0 ^^^ (x0 >>> 16)) 0x85ebca6b
  let x2 := imul32 (x1 ^^^ (x1 >>> 13)) 0xc2b2ae35
  (x2 ^^^ (x2 >>> 16)) % 4294967296

/-- A heterogeneous part accepted by `seedFromParts` (numeric parts are
integers at every call site of the repository). -/
inductive SeedPart where
  | n : ℤ → SeedPart
  | s : String → SeedPart
  | b : Bool → SeedPart
  | nul : SeedPart
deriving Repr, DecidableEq

/-- `partToU32`. -/
def partToU32 : SeedPart → Nat
  | .n z => toU32 z
  | .s str => strHash str
  | .b bv => if bv then 1 else 0
  | .nul => 0

/-- `seedFromParts(...parts)`: fold through `mixSeed` from `0xA5A5A5A5`. -/
def seedFromParts (parts : List SeedPart) : Nat :=
  natU32 (parts.foldl (fun s p => mixSeed s (partToU32 p)) 0xA5A5A5A5)

/-- `MapGenerator.createZoneSeed(actSeed, zoneIndex)`:
`(actSeed ^ Math.imul(zoneIndex + 1, 0x9E3779B9)) >>> 0`. -/
def createZoneSeed (actSeed : Nat) (zoneIndex : Nat) : Nat :=
  natU32 (natU32 actSeed ^^^ imul32 (natU32 (zoneIndex + 1)) 0x9E3779B9)

/-! ## Act configuration (the nested data consumed from `data/acts.json`) -/

/-- A `width`/`height` entry of `actConfig.generation`: a two-element
array, a plain number, or absent (arrays of length `< 2` behave like
absent in the source and are modelled as `missing`). -/
inductive RangeSpec where
  | arr : ℚ → ℚ → RangeSpec
  | num : ℚ → RangeSpec
  | missing : RangeSpec
deriving Repr, DecidableEq

/-- `actConfig.generation`. -/
structure GenCfg where
  width : RangeSpec := .missing
  height : RangeSpec := .missing
  enemyDensity : Option ℚ := none
  eliteDensity : Option ℚ := none
  obstacleDensity : Option ℚ := none
deriving Repr, DecidableEq

/-- One entry of a modifier pool (`weight` read with `?? 1`). -/
structure ModEntry where
  id : String
  weight : Option ℚ := none
deriving Repr, DecidableEq

/-- `actConfig.modifiers`. -/
structure ModifiersCfg where
  pool : Option (List ModEntry) := none
  baseline : Option (List String) := none
deriving Repr, DecidableEq

/-- `actConfig.enemies`. -/
structure EnemiesCfg where
  pool : Option (List String) := none
  elitePool : Option (List String) := none
deriving Repr, DecidableEq

/-- `actConfig.boss`. -/
structure BossCfg where
  arenaWidth : Option ℚ := none
  arenaHeight : Option ℚ := none
  type : Option String := none
deriving Repr, DecidableEq

/-- `actConfig.parallax.nebula`. -/
structure NebCfg where
  enabled : Bool := false
  count : Option ℚ := none
  color : Option String := none
deriving Repr, DecidableEq

/-- `actConfig.parallax`. -/
structure ParallaxCfg where
  bgColor : Option String := none
  nebula : Option NebCfg := none
deriving Repr, DecidableEq

/-- An act configuration (`zones` is the configured zone count; it is an
integer in the data files and is checked with `typeof === 'number' && > 0`
before use as the boss interval). -/
structure ActConfig where
  biome : Option String := none
  zones : Option ℤ := none
  generation : Option GenCfg := none
  enemies : Option EnemiesCfg := none
  boss : Option BossCfg := none
  modifiers : Option ModifiersCfg := none
  parallax : Option ParallaxCfg := none
deriving Repr, DecidableEq

/-! ## `Freshness.js` -/

/-- `State.meta.freshness`: bounded ring of recently chosen keys. -/
structure FreshSt where
  window : ℕ := 8
  recent : List String := []
deriving Repr, DecidableEq

/-- `State.data.config.freshness`. -/
structure FreshCfg where
  window : Option ℤ := none
  penaltyBase : Option ℚ := none
deriving Repr, DecidableEq

namespace Freshness

/-- `Freshness.ensure(meta, cfg)`: create the record when absent, clamp the
window to `[1, 64]`, truncate `recent` to the last `window` entries. -/
def ensure (m : Option FreshSt) (cfg : FreshCfg) : FreshSt :=
  let f0 := m.getD {}
  let w0 : ℤ := cfg.window.getD (f0.window : ℤ)
  let w := (max 1 (min 64 (toI32 w0))).toNat
  let recent := if w < f0.recent.length then f0.recent.drop (f0.recent.length - w) else f0.recent
  ⟨w, recent⟩

/-- `Freshness.applyPenalty(weight, countRecent, penaltyBase)`:
`weight * base^count`, with `base` falling back to `0.25` unless it lies
strictly inside `(0,1)`. -/
def applyPenalty (w : ℚ) (c : ℕ) (pb : ℚ) : ℚ :=
  let base := if 0 < pb ∧ pb < 1 then pb else 0.25
  w * base ^ c

/-- `Freshness.push(meta, key)`: append and truncate from the front. -/
def push (f0 : FreshSt) (key : String) : FreshSt :=
  let f := ensure (some f0) {}
  let r := f.recent ++ [key]
  ⟨f.window, if f.window < r.length then r.drop (r.length - f.window) else r⟩

/-- The subtract-scan of `Freshness.pick`: first row where the draw `r`
falls inside the accumulated weight, falling back to the last row. -/
def scanRows {α : Type} : List (α × String × ℚ) → ℚ → ℚ → (α × String) → (α × String)
  | [], _, _, last => last
  | (o, k, w) :: t, r, acc, last =>
    if r ≤ acc + w then (o, k)
    else
      let _ := last
      scanRows t r (acc + w) (o, k)

/-- `Freshness.pick(rng, options, keyFn, meta, penaltyBase)`.  `wtF` reads
`opt.weight` (`1` when not a number), `keyF` is the key function; returns
`{selected, key}` as an optional pair, threading the RNG exactly as the
source does (the stream is consumed only on the weighted-draw path). -/
def pick {α : Type} (g : SR) (options : List α) (wtF : α → Option ℚ) (keyF : α → String)
    (f : FreshSt) (pb : ℚ) : Option (α × String) × SR :=
  match options with
  | [] => (none, g)
  | o0 :: _ =>
    let rows := options.map (fun o =>
      (o, keyF o, applyPenalty (max 0 ((wtF o).getD 1)) (f.recent.count (keyF o)) pb))
    let total := rows.foldl (fun a r => a + r.2.2) (0 : ℚ)
    let rows2 := if total ≤ 0 then options.map (fun o => (o, keyF o, max 0 ((wtF o).getD 1))) else rows
    let total2 := if total ≤ 0 then rows2.foldl (fun a r => a + r.2.2) (0 : ℚ) else total
    if total2 ≤ 0 then (some (o0, keyF o0), g)
    else
      let rp := g.range 0 total2
      (some (scanRows rows2 rp.1 0 (o0, keyF o0)), rp.2)

end Freshness

/-! ## `DepthRules.js` -/

/-- `State.meta.depth`: per-profile depth/unlock record (`ensureMeta`
guarantees exactly this shape, so it is modelled as always present). -/
structure DepthRec where
  bestDepth : ℕ := 1
  unlocked : List String := []
  lastUnlockAt : ℕ := 0
deriving Repr, DecidableEq

namespace DepthRules

/-- The built-in default modifier pool. -/
def DEFAULT_POOL : List ModEntry :=
  [⟨"ELITE_PACKS", some 1.2⟩, ⟨"BULLET_HELL", some 0.9⟩, ⟨"FAST_ENEMIES", some 1.1⟩,
   ⟨"CRAMPED_ZONE", some 0.8⟩, ⟨"MINEFIELD", some 1.0⟩, ⟨"DENSE_OBSTACLES", some 0.9⟩,
   ⟨"RICH_LOOT", some 0.6⟩]

/-- `UNLOCK_EVERY_DEPTH`. -/
def UNLOCK_EVERY_DEPTH : ℕ := 25

/-- `modifierSlots(depth)`. -/
def modifierSlots (depth : ℕ) : ℕ :=
  if depth < 25 then 1
  else if depth < 50 then 2
  else if depth < 100 then 3
  else if depth < 200 then 4
  else 5 + (depth - 200) / 150

/-- The act's modifier pool, or the built-in default. -/
def poolOf (act : Option ActConfig) : List ModEntry :=
  match act with
  | some a =>
    match a.modifiers with
    | some mc => mc.pool.getD DEFAULT_POOL
    | none => DEFAULT_POOL
  | none => DEFAULT_POOL

/-- The act's baseline modifiers, or the built-in default. -/
def baselineOf (act : Option ActConfig) : List String :=
  match act with
  | some a =>
    match a.modifiers with
    | some mc => mc.baseline.getD ["ELITE_PACKS"]
    | none => ["ELITE_PACKS"]
  | none => ["ELITE_PACKS"]

/-- The subtract-loop of `weightedPick`: return the first item where the
remainder goes non-positive, else the last item (`none` on an empty list,
as the source returns `undefined`). -/
def wpScan : List ModEntry → ℚ → Option ModEntry
  | [], _ => none
  | it :: t, r =>
    let r' := r - it.weight.getD 1
    if r' ≤ 0 then some it
    else
      match t with
      | [] => some it
      | _ => wpScan t r'

/-- `weightedPick(list, rng)` (every embedded call site provides the
seeded stream, so the `Math.random()` fallback branch is not reachable
from this model). -/
def weightedPick (list : List ModEntry) (g : SR) : Option ModEntry × SR :=
  let total := list.foldl (fun a it => a + it.weight.getD 1) 0
  let p := g.next
  (wpScan list (p.1 * total), p.2)

/-- `maybeUnlock(depth, actConfig, rng)`, returning the unlocked id (if
any) together with the updated depth record and stream.  (`ensureMeta` is
the identity on this typed record; `lastUnlockAt || 0` is likewise the
identity on `ℕ`.)  The `none` branch of the final match is unreachable:
the candidate list is non-empty there, so `weightedPick` yields a value. -/
def maybeUnlock (depth : ℕ) (act : Option ActConfig) (m : DepthRec) (g : SR) :
    Option String × DepthRec × SR :=
  let last := m.lastUnlockAt
  if depth < UNLOCK_EVERY_DEPTH then (none, m, g)
  else
    let milestone := depth / UNLOCK_EVERY_DEPTH * UNLOCK_EVERY_DEPTH
    if milestone ≤ last then (none, m, g)
    else
      let pool := poolOf act
      let cands := pool.filter (fun e => !(m.unlocked.contains e.id))
      if cands.isEmpty then (none, { m with lastUnlockAt := milestone }, g)
      else
        let wp := weightedPick cands g
        match wp.1 with
        | some p =>
          (some p.id, { m with unlocked := m.unlocked ++ [p.id], lastUnlockAt := milestone }, wp.2)
        | none => (none, { m with lastUnlockAt := milestone }, wp.2)

/-- The slot-filling loop of `sampleActive`. -/
def sampleGo (available : List ModEntry) : ℕ → List String → SR → List String × SR
  | 0, picked, g => (picked, g)
  | n + 1, picked, g =>
    let cand := available.filter (fun e => !(picked.contains e.id))
    if cand.isEmpty then (picked, g)
    else
      let wp := weightedPick cand g
      match wp.1 with
      | some p => sampleGo available n (picked ++ [p.id]) wp.2
      | none => sampleGo available n picked wp.2

/-- `sampleActive(depth, actConfig, rng)`: weighted picks without
replacement from the unlocked-plus-baseline pool, `clamp(slots, 0, 8)`
many. -/
def sampleActive (depth : ℕ) (act : Option ActConfig) (m : DepthRec) (g : SR) :
    List String × SR :=
  let pool := poolOf act
  let baseline := baselineOf act
  let available := pool.filter (fun e => m.unlocked.contains e.id || baseline.contains e.id)
  if available.isEmpty then ([], g)
  else
    let slots := max 0 (min 8 (modifierSlots depth))
    sampleGo available slots [] g

/-- `recordDepth(depth)`. -/
def recordDepth (depth : ℕ) (m : DepthRec) : DepthRec :=
  if m.bestDepth < depth then { m with bestDepth := depth } else m

end DepthRules

/-! ## `MapGenerator.js` -/

/-- The ambient `Math` object's transcendental members, pure rational-valued
functions supplied to the embedding (their values never influence control
flow in the generator or orchestrator). -/
structure JsMath where
  pi : ℚ
  cos : ℚ → ℚ
  sin : ℚ → ℚ
  atan2 : ℚ → ℚ → ℚ

/-- `Math.hypot(dx,dy) < r`, in the equivalent squared form: since the
Euclidean norm is non-negative, `hypot(dx,dy) < r ↔ 0 < r ∧ dx² + dy² < r²`
holds for every `r` over the reals. -/
def distSqLt (dx dy r : ℚ) : Bool := decide (0 < r ∧ dx ^ 2 + dy ^ 2 < r ^ 2)

/-- `Math.hypot(dx,dy) > r`, in the equivalent squared form:
`hypot(dx,dy) > r ↔ r < 0 ∨ r² < dx² + dy²` over the reals. -/
def distSqGt (dx dy r : ℚ) : Bool := decide (r < 0 ∨ r ^ 2 < dx ^ 2 + dy ^ 2)

/-- JS `x || d` for an optional string (the empty string is falsy). -/
def getDS (o : Option String) (d : String) : String :=
  match o with
  | some v => if v = "" then d else v
  | none => d

/-- JS `x || d` for an optional natural number (`0` is falsy). -/
def natDF (o : Option ℕ) (d : ℕ) : ℕ :=
  match o with
  | some v => if v = 0 then d else v
  | none => d

/-- A spawn descriptor.  Runtime fields that the generator leaves absent
(`patrol`, `enemyId`, the boss descriptor's `active`/`killed`) read as
falsy `undefined` in JS and are modelled by their defaults. -/
structure SpawnDesc where
  x : ℚ
  y : ℚ
  type : Option String := none
  patrol : Option String := none
  patrolRadius : ℚ := 0
  active : Bool := false
  killed : Bool := false
  enemyId : Option ℕ := none
deriving Repr, DecidableEq

/-- An obstacle (fields the source leaves absent default to `0`). -/
structure Obstacle where
  x : ℚ
  y : ℚ
  type : Option String := none
  radius : ℚ := 0
  rotation : ℚ := 0
  destructible : Bool := true
  hp : ℚ := 0
  damage : ℚ := 0
deriving Repr, DecidableEq

/-- A decoration. -/
structure Decoration where
  x : ℚ
  y : ℚ
  type : Option String := none
  scale : ℚ := 1
  rotation : ℚ := 0
  alpha : ℚ := 1
deriving Repr, DecidableEq

/-- One star of a parallax starfield. -/
structure StarPt where
  x : ℚ
  y : ℚ
  size : ℚ
  brightness : ℚ
  twinkle : Bool
deriving Repr, DecidableEq

/-- One nebula wisp. -/
structure Wisp where
  x : ℚ
  y : ℚ
  width : ℚ
  height : ℚ
  color : String
  alpha : ℚ
  rotation : ℚ
deriving Repr, DecidableEq

/-- Parallax layer 0. -/
structure BgLayer where
  color : String
  stars : List StarPt
  scrollSpeed : ℚ
deriving Repr, DecidableEq

/-- Parallax layer 1. -/
structure MidLayer where
  stars : List StarPt
  scrollSpeed : ℚ
deriving Repr, DecidableEq

/-- Parallax layer 2. -/
structure FgLayer where
  objects : List Wisp
  scrollSpeed : ℚ
deriving Repr, DecidableEq

/-- The four parallax layers. -/
structure Parallax where
  background : BgLayer
  midground : MidLayer
  foreground : FgLayer
  particlesSpeed : ℚ := 0.9
deriving Repr, DecidableEq

/-- A portal appended to a zone. -/
structure Portal where
  x : ℚ
  y : ℚ
  destination : String
  ptype : String
deriving Repr, DecidableEq

/-- The per-zone derived-seed bundle built in `World.loadZone`. -/
structure SeedBundle where
  zone : Nat
  macroSeed : Nat
  mesoSeed : Nat
  microSeed : Nat
  modsSeed : Nat
  encountersSeed : Nat
  lootSeed : Nat
deriving Repr, DecidableEq

/-- A generated zone. -/
structure Zone where
  seed : Nat
  width : ℚ
  height : ℚ
  biome : Option String
  isBossZone : Bool := false
  spawn : ℚ × ℚ
  exit : Option (ℚ × ℚ) := none
  enemySpawns : List SpawnDesc := []
  eliteSpawns : List SpawnDesc := []
  bossSpawn : Option SpawnDesc := none
  obstacles : List Obstacle := []
  decorations : List Decoration := []
  parallax : Parallax
  pickups : List Unit := []
  portals : List Portal := []
  depth : ℕ := 0
  mods : List String := []
  layout : String := ""
  backdrop : String := ""
  signature : String := ""
  seeds : Option SeedBundle := none

/-- The `options` argument of `MapGenerator.generate`. -/
structure GenOpts where
  depth : Option ℕ := none
  mods : Option (List String) := none
  layout : Option String := none
  backdrop : Option String := none
  seeds : Option SeedBundle := none

namespace MapGenerator

/-- The local `pickRange` helper of `generate`. -/
def pickRange (g : SR) (v : RangeSpec) (fmn fmx : ℚ) : ℚ × SR :=
  match v with
  | .arr a b =>
    let p := g.int a b
    ((p.1 : ℚ), p.2)
  | .num x => (x, g)
  | .missing =>
    let p := g.int fmn fmx
    ((p.1 : ℚ), p.2)

/-- Dimension/density parameters computed by `generate` (lines 34–97 of
`MapGenerator.js`): depth ramps, modifier scalings, layout template,
hard caps, cramped shrink.  Returned as `(w, h, enemyD, eliteD, obsD)`
with the advanced meso stream. -/
structure GP where
  w : ℚ
  h : ℚ
  eD : ℚ
  elD : ℚ
  oD : ℚ
deriving Repr, DecidableEq

/-- The layout template switch of `generate` (lines 64–90): adjusts the
dimensions and densities per layout tag, returning
`(w, h, enemyD, eliteD, obstacleD)`. -/
def layoutAdjust (layout : String) (w0 h0 e2 el1 o2 : ℚ) : ℚ × ℚ × ℚ × ℚ × ℚ :=
  if layout = "CORRIDOR" then
    (((⌊w0 * 0.75⌋ : ℤ) : ℚ), ((⌊h0 * 1.25⌋ : ℤ) : ℚ), e2 * 1.05, el1, o2 * 0.85)
  else if layout = "ARENA" then
    (((⌊w0 * 1.15⌋ : ℤ) : ℚ), ((⌊h0 * 0.9⌋ : ℤ) : ℚ), e2, el1, o2 * 0.9)
  else if layout = "CLUTTERED" then
    (w0, h0, e2, el1, o2 * 1.55)
  else if layout = "CRAMPED" then
    (((⌊w0 * 0.78⌋ : ℤ) : ℚ), ((⌊h0 * 0.78⌋ : ℤ) : ℚ), e2 * 1.1, el1 * 1.05, o2 * 1.6)
  else
    (w0, h0, e2, el1, o2 * 0.9)

/-- The cramped-zone shrink of `generate` (line 97). -/
def crampShrink (cm w h : ℚ) : ℚ × ℚ :=
  if cm ≠ 1.0 then (((⌊w * cm⌋ : ℤ) : ℚ), ((⌊h * cm⌋ : ℤ) : ℚ)) else (w, h)

/-- The parameter block of `generate` (densities and dimensions). -/
def genParams (cfg : GenCfg) (depth : ℕ) (mods : List String) (layout : String)
    (g : SR) : GP × SR :=
  let depthEnemyMult : ℚ := 1 + min ((depth : ℚ) * 0.012) 1.6
  let depthEliteMult : ℚ := 1 + min ((depth : ℚ) * 0.010) 1.2
  let depthObsMult : ℚ := 1 + min ((depth : ℚ) * 0.008) 1.0
  let e0 := getDF cfg.enemyDensity 0.0005 * depthEnemyMult
  let el0 := getDF cfg.eliteDensity 0.00008 * depthEliteMult
  let o0 := getDF cfg.obstacleDensity 0.0002 * depthObsMult
  let e1 := if mods.contains "BULLET_HELL" then e0 * 1.35 else e0
  let el1 := if mods.contains "ELITE_PACKS" then el0 * 1.55 else el0
  let e2 := if mods.contains "FAST_ENEMIES" then e1 * 1.10 else e1
  let o1 := if mods.contains "DENSE_OBSTACLES" then o0 * 1.35 else o0
  let o2 := if mods.contains "MINEFIELD" then o1 * 1.15 else o1
  let crampedMult : ℚ := if mods.contains "CRAMPED_ZONE" then 0.85 else 1.0
  let wp := pickRange g cfg.width 1500 3000
  let hp := pickRange wp.2 cfg.height 1500 3000
  let ld := layoutAdjust layout wp.1 hp.1 e2 el1 o2
  let eD := min ld.2.2.1 0.0012
  let elD := min ld.2.2.2.1 0.00025
  let oD := min ld.2.2.2.2 0.0008
  let wh := crampShrink crampedMult ld.1 ld.2.1
  (⟨wh.1, wh.2, eD, elD, oD⟩, hp.2)

/-- `generateSpawnPoint(rng, w, h, cfg)`. -/
def generateSpawnPoint (g : SR) (w h : ℚ) : (ℚ × ℚ) × SR :=
  let ep := g.pick ["bottom", "left", "right"]
  let margin : ℚ := 100
  match ep.1 with
  | some "bottom" =>
    let rp := ep.2.range margin (w - margin)
    ((rp.1, h - margin), rp.2)
  | some "left" =>
    let rp := ep.2.range margin (h - margin)
    ((margin, rp.1), rp.2)
  | some "right" =>
    let rp := ep.2.range margin (h - margin)
    ((w - margin, rp.1), rp.2)
  | _ => ((w / 2, h - margin), ep.2)

/-- `generateExitPoint(rng, spawn, w, h)`. -/
def generateExitPoint (g : SR) (spawn : ℚ × ℚ) (w h : ℚ) : (ℚ × ℚ) × SR :=
  let margin : ℚ := 100
  if h / 2 < spawn.2 then
    let rp := g.range margin (w - margin)
    ((rp.1, margin), rp.2)
  else if spawn.1 < w / 2 then
    let rp := g.range margin (h - margin)
    ((w - margin, rp.1), rp.2)
  else
    let rp := g.range margin (h - margin)
    ((margin, rp.1), rp.2)

/-- `minDistBetween` as adjusted per layout in `generateEnemySpawns`. -/
def minBetweenOf (layout : String) : ℚ :=
  if layout = "CLUTTERED" then 120
  else if layout = "OPEN" then 165
  else if layout = "CORRIDOR" then 140
  else if layout = "CRAMPED" then 115
  else 150

/-- The rejection-sampling loop of `generateEnemySpawns`.  One unit of
fuel is one loop iteration (`i++`); the loop also stops as soon as
`count` points were accepted. -/
def genEnemyGo (pool : List String) (w h : ℚ) (spawn exit : ℚ × ℚ) (layout : String)
    (count : ℤ) : ℕ → List SpawnDesc → SR → List SpawnDesc × SR
  | 0, acc, g => (acc, g)
  | fuel + 1, acc, g =>
    if count ≤ (acc.length : ℤ) then (acc, g)
    else
      let xp := g.range 100 (w - 100)
      let yp := xp.2.range 100 (h - 100)
      let xg : ℚ × SR :=
        if layout = "CORRIDOR" then
          let cp := yp.2.chance 0.7
          if cp.1 then
            let rp := cp.2.range (w * 0.35) (w * 0.65)
            (rp.1, rp.2)
          else (xp.1, cp.2)
        else (xp.1, yp.2)
      let x := xg.1
      let y := yp.1
      let g2 := xg.2
      if distSqLt (x - spawn.1) (y - spawn.2) 300 then
        genEnemyGo pool w h spawn exit layout count fuel acc g2
      else if distSqLt (x - exit.1) (y - exit.2) 200 then
        genEnemyGo pool w h spawn exit layout count fuel acc g2
      else if acc.any (fun s => distSqLt (x - s.x) (y - s.y) (minBetweenOf layout)) then
        genEnemyGo pool w h spawn exit layout count fuel acc g2
      else
        let tp := g2.pick pool
        let pp := tp.2.pick ["static", "circle", "line", "wander"]
        let rp := pp.2.int 50 150
        genEnemyGo pool w h spawn exit layout count fuel
          (acc ++ [{ x := x, y := y, type := tp.1, patrol := pp.1,
                     patrolRadius := (rp.1 : ℚ) }]) rp.2

/-- `generateEnemySpawns(rng, pool, density, w, h, spawn, exit, {layout})`:
target `count = floor(w*h*density)`, at most `3*count` candidate
attempts. -/
def generateEnemySpawns (g : SR) (pool : List String) (density w h : ℚ)
    (spawn exit : ℚ × ℚ) (layout : String) : List SpawnDesc × SR :=
  let count : ℤ := ⌊w * h * density⌋
  genEnemyGo pool w h spawn exit layout count (3 * count).toNat [] g

/-- The loop of `generateEliteSpawns` (every iteration accepts). -/
def genEliteGo (pool : List String) (w h : ℚ) : ℕ → List SpawnDesc → SR → List SpawnDesc × SR
  | 0, acc, g => (acc, g)
  | n + 1, acc, g =>
    let xp := g.range 200 (w - 200)
    let yp := xp.2.range 200 (h - 200)
    let tp := yp.2.pick pool
    genEliteGo pool w h n (acc ++ [{ x := xp.1, y := yp.1, type := tp.1 }]) tp.2

/-- `generateEliteSpawns(rng, pool, density, w, h)`:
`count = max(1, floor(w*h*density))` descriptors, unconditionally. -/
def generateEliteSpawns (g : SR) (pool : List String) (density w h : ℚ) :
    List SpawnDesc × SR :=
  let count : ℤ := max 1 ⌊w * h * density⌋
  genEliteGo pool w h count.toNat [] g

/-- The loop of `generateObstacles`. -/
def genObsGo (jm : JsMath) (depth : ℕ) (mods : List String) (layout : String)
    (w h : ℚ) : ℕ → List Obstacle → SR → List Obstacle × SR
  | 0, acc, g => (acc, g)
  | n + 1, acc, g =>
    let typePool := if mods.contains "MINEFIELD" then
        ["asteroid", "debris", "mine", "mine"] else ["asteroid", "debris"]
    let tp := g.pick typePool
    let ty := tp.1
    let xg : ℚ × SR :=
      if layout = "CORRIDOR" then
        let cp := tp.2.chance 0.6
        if cp.1 then
          let sp := cp.2.chance 0.5
          if sp.1 then
            let rp := sp.2.range 100 (w * 0.25)
            (rp.1, rp.2)
          else
            let rp := sp.2.range (w * 0.75) (w - 100)
            (rp.1, rp.2)
        else
          let rp := cp.2.range 100 (w - 100)
          (rp.1, rp.2)
      else
        let rp := tp.2.range 100 (w - 100)
        (rp.1, rp.2)
    let yp := xg.2.range 100 (h - 100)
    let rad := if ty = some "asteroid" then yp.2.int 30 80 else yp.2.int 15 30
    let rot := rad.2.range 0 (jm.pi * 2)
    let hpv : ℚ × SR :=
      if ty = some "asteroid" then
        let ip := rot.2.int 25 60
        ((ip.1 : ℚ), ip.2)
      else if ty = some "mine" then (6, rot.2)
      else (12, rot.2)
    let dmg : ℚ := if ty = some "mine" then 8 + ((⌊(depth : ℚ) * 0.25⌋ : ℤ) : ℚ) else 0
    genObsGo jm depth mods layout w h n
      (acc ++ [{ x := xg.1, y := yp.1, type := ty, radius := (rad.1 : ℚ),
                 rotation := rot.1, destructible := true, hp := hpv.1, damage := dmg }]) hpv.2

/-- `generateObstacles(rng, density, w, h, {depth, mods, layout})`:
`count = floor(w*h*density)` obstacles. -/
def generateObstacles (jm : JsMath) (g : SR) (density w h : ℚ) (depth : ℕ)
    (mods : List String) (layout : String) : List Obstacle × SR :=
  let count : ℤ := ⌊w * h * density⌋
  genObsGo jm depth mods layout w h count.toNat [] g

/-- `generateBossArenaObstacles(rng, w, h)`: 2–4 pillars on a ring. -/
def generateBossArenaObstacles (jm : JsMath) (g : SR) (w h : ℚ) : List Obstacle × SR :=
  let pc := g.int 2 4
  (List.range pc.1.toNat).foldl
    (fun st i =>
      let angle := ((i : ℚ) / (pc.1 : ℚ)) * jm.pi * 2
      let dp := st.2.range 200 350
      (st.1 ++ [{ x := w / 2 + jm.cos angle * dp.1, y := h / 2 + jm.sin angle * dp.1,
                  type := some "pillar", radius := 40, destructible := false }], dp.2))
    (([] : List Obstacle), pc.2)

/-- The loop of `generateDecorations`. -/
def genDecoGo (jm : JsMath) (pool : List String) (w h : ℚ) :
    ℕ → List Decoration → SR → List Decoration × SR
  | 0, acc, g => (acc, g)
  | n + 1, acc, g =>
    let xp := g.range 0 w
    let yp := xp.2.range 0 h
    let tp := yp.2.pick pool
    let sc := tp.2.range 0.5 1.5
    let rot := sc.2.range 0 (jm.pi * 2)
    let al := rot.2.range 0.3 0.7
    genDecoGo jm pool w h n
      (acc ++ [{ x := xp.1, y := yp.1, type := tp.1, scale := sc.1,
                 rotation := rot.1, alpha := al.1 }]) al.2

/-- `generateDecorations(rng, biome, w, h)`. -/
def generateDecorations (jm : JsMath) (g : SR) (biome : Option String) (w h : ℚ) :
    List Decoration × SR :=
  let count : ℤ := ⌊w * h * 0.001⌋
  let pool :=
    if biome = some "asteroid" then ["rock_small", "crystal", "ice_chunk"]
    else if biome = some "station" then ["debris", "panel", "wire"]
    else ["star_cluster", "nebula_wisp", "dust_cloud"]
  genDecoGo jm pool w h count.toNat [] g

/-- The loop of `generateStarfield`. -/
def genStarGo : ℕ → List StarPt → SR → (ℚ × ℚ) → List StarPt × SR
  | 0, acc, g, _ => (acc, g)
  | n + 1, acc, g, wh =>
    let xp := g.range 0 wh.1
    let yp := xp.2.range 0 wh.2
    let sz := yp.2.range 0.5 2
    let br := sz.2.range 0.3 1
    let tw := br.2.chance 0.3
    genStarGo n (acc ++ [{ x := xp.1, y := yp.1, size := sz.1, brightness := br.1,
                           twinkle := tw.1 }]) tw.2 wh

/-- `generateStarfield(rng, w, h, density)`. -/
def generateStarfield (g : SR) (w h density : ℚ) : List StarPt × SR :=
  let count : ℤ := ⌊w * h * density⌋
  genStarGo count.toNat [] g (w, h)

/-- The loop of `generateNebulaWisps`. -/
def genWispGo (jm : JsMath) (w h : ℚ) (color : String) : ℕ → List Wisp → SR → List Wisp × SR
  | 0, acc, g => (acc, g)
  | n + 1, acc, g =>
    let xp := g.range 0 w
    let yp := xp.2.range 0 h
    let wd := yp.2.range 200 500
    let ht := wd.2.range 100 300
    let al := ht.2.range 0.05 0.15
    let rot := al.2.range 0 (jm.pi * 2)
    genWispGo jm w h color n
      (acc ++ [{ x := xp.1, y := yp.1, width := wd.1, height := ht.1, color := color,
                 alpha := al.1, rotation := rot.1 }]) rot.2

/-- `generateNebulaWisps(rng, w, h, nebulaConfig)`: empty (stream
untouched) unless `enabled`; count from config (`|| rng.int(3, 8)`). -/
def generateNebulaWisps (jm : JsMath) (g : SR) (w h : ℚ) (ncfg : NebCfg) :
    List Wisp × SR :=
  if !ncfg.enabled then ([], g)
  else
    let cg : ℚ × SR :=
      match ncfg.count with
      | some c => if c = 0 then (let p := g.int 3 8; ((p.1 : ℚ), p.2)) else (c, g)
      | none =>
        let p := g.int 3 8
        ((p.1 : ℚ), p.2)
    let color := getDS ncfg.color "#4400aa"
    genWispGo jm w h color (max 0 ⌈cg.1⌉).toNat [] cg.2

/-- The backdrop palette of `generateParallax`. -/
def paletteOf (variant : String) : String × String :=
  if variant = "B" then ("#050a1a", "#0044aa")
  else if variant = "C" then ("#0b0515", "#aa0044")
  else if variant = "D" then ("#050515", "#00aa88")
  else ("#0a0a15", "#4400aa")

/-- `generateParallax(rng, actConfig, w, h, variant)`. -/
def generateParallax (jm : JsMath) (g : SR) (actConfig : ActConfig) (w h : ℚ)
    (variant : String) : Parallax × SR :=
  let cfg := actConfig.parallax.getD {}
  let p := paletteOf variant
  let bgStars := generateStarfield g (w * 1.5) (h * 1.5) 0.0003
  let midStars := generateStarfield bgStars.2 (w * 1.3) (h * 1.3) 0.0002
  let nb0 := cfg.nebula.getD {}
  let nb := { nb0 with color := some (getDS nb0.color p.2) }
  let wisps := generateNebulaWisps jm midStars.2 w h nb
  ({ background := { color := getDS cfg.bgColor p.1, stars := bgStars.1, scrollSpeed := 0.1 },
     midground := { stars := midStars.1, scrollSpeed := 0.3 },
     foreground := { objects := wisps.1, scrollSpeed := 0.6 },
     particlesSpeed := 0.9 }, wisps.2)

/-- `MapGenerator.generate(actConfig, zoneSeed, options)`: the full
normal-zone generator, a pure function of its arguments (three
independent RNG streams seeded from the seed bundle, no ambient state). -/
def generate (jm : JsMath) (actConfig : ActConfig) (zoneSeed : Nat) (options : GenOpts) :
    Zone :=
  let layout := getDS options.layout "OPEN"
  let backdrop := getDS options.backdrop "A"
  let rngMac := SR.mk' ((options.seeds.map (·.macroSeed)).getD zoneSeed)
  let rngMes := SR.mk' ((options.seeds.map (·.mesoSeed)).getD zoneSeed)
  let rngMic := SR.mk' ((options.seeds.map (·.microSeed)).getD zoneSeed)
  let cfg := actConfig.generation.getD {}
  let depth := natDF options.depth 1
  let mods := options.mods.getD []
  let gp := genParams cfg depth mods layout rngMes
  let w := gp.1.w
  let h := gp.1.h
  let sp := generateSpawnPoint gp.2 w h
  let par := generateParallax jm rngMac actConfig w h backdrop
  let ex := generateExitPoint sp.2 sp.1 w h
  let es := generateEnemySpawns rngMic ((actConfig.enemies.bind (·.pool)).getD ["grunt"])
    gp.1.eD w h sp.1 ex.1 layout
  let els := generateEliteSpawns es.2 ((actConfig.enemies.bind (·.elitePool)).getD ["commander"])
    gp.1.elD w h
  let obs := generateObstacles jm ex.2 gp.1.oD w h depth mods layout
  let dec := generateDecorations jm els.2 actConfig.biome w h
  { seed := natU32 zoneSeed
    width := w
    height := h
    biome := some (getDS actConfig.biome "space")
    spawn := sp.1
    exit := some ex.1
    enemySpawns := es.1
    eliteSpawns := els.1
    bossSpawn := none
    obstacles := obs.1
    decorations := dec.1
    parallax := par.1 }

/-- `MapGenerator.generateBossZone(actConfig, zoneSeed, options)`. -/
def generateBossZone (jm : JsMath) (actConfig : ActConfig) (zoneSeed : Nat)
    (options : GenOpts) : Zone :=
  let backdrop := getDS options.backdrop "A"
  let rng := SR.mk' ((options.seeds.map (·.mesoSeed)).getD zoneSeed)
  let rngMac := SR.mk' ((options.seeds.map (·.macroSeed)).getD zoneSeed)
  let cfg := actConfig.boss.getD {}
  let w := getDF cfg.arenaWidth 1200
  let h := getDF cfg.arenaHeight 1000
  let obs := generateBossArenaObstacles jm rng w h
  let par := generateParallax jm rngMac actConfig w h backdrop
  { seed := natU32 zoneSeed
    width := w
    height := h
    biome := actConfig.biome
    isBossZone := true
    spawn := (w / 2, h - 100)
    exit := none
    bossSpawn := some { x := w / 2, y := 200, type := some (getDS cfg.type "sentinel") }
    enemySpawns := []
    eliteSpawns := []
    obstacles := obs.1
    decorations := []
    parallax := par.1 }

end MapGenerator

/-! ## `SpawnGrid.js` -/

/-- The uniform spatial hash.  The map of cells is modelled as an
association list from the packed 32-bit key to the cell's array; map
iteration order is irrelevant to every property proved here.  Elements
are stored together with the position read from `spawn.x`/`spawn.y` at
insertion time (positions of spawn descriptors never change). -/
structure SpawnGrid (α : Type) where
  cellSize : ℤ
  cells : List (Nat × List α)

namespace SpawnGrid

/-- `new SpawnGrid(cellSize)`: `Math.max(64, cellSize | 0)`, empty map. -/
def new (α : Type) (cs : ℚ) : SpawnGrid α := ⟨max 64 (jsOr0 cs), []⟩

/-- `_key(cx, cy) = (cx << 16) ^ (cy & 0xFFFF)` (the unsigned
representative of the packed int32 key; key equality in the JS `Map` is
numeric equality, i.e. equality of representatives). -/
def key (cx cy : ℤ) : Nat := toU32 (cx * 65536) ^^^ (toU32 cy &&& 65535)

/-- `_cellCoord`: `Math.floor(x / cellSize)`. -/
def cellCoord (cs : ℤ) (x : ℚ) : ℤ := ⌊x / (cs : ℚ)⌋

/-- Append `a` to the cell `k` of the association list (creating it at
the end when absent, as `Map.set` appends in insertion order). -/
def bumpCell {α : Type} : List (Nat × List α) → Nat → α → List (Nat × List α)
  | [], k, a => [(k, [a])]
  | (k', l) :: t, k, a =>
    if k' = k then (k', l ++ [a]) :: t else (k', l) :: bumpCell t k a

/-- `insert(spawn)`, with the spawn's position passed explicitly. -/
def insert {α : Type} (g : SpawnGrid α) (x y : ℚ) (a : α) : SpawnGrid α :=
  ⟨g.cellSize, bumpCell g.cells (key (cellCoord g.cellSize x) (cellCoord g.cellSize y)) a⟩

/-- `clear()`. -/
def clear {α : Type} (g : SpawnGrid α) : SpawnGrid α := ⟨g.cellSize, []⟩

/-- `build(spawns)`: clear, then insert each element at its position. -/
def build {α : Type} (g : SpawnGrid α) (items : List α) (pos : α → ℚ × ℚ) : SpawnGrid α :=
  items.foldl (fun gr a => gr.insert (pos a).1 (pos a).2 a) g.clear

/-- The inclusive integer range `[a, b]` of cell coordinates. -/
def intRange (a b : ℤ) : List ℤ := (List.range (b - a + 1).toNat).map (fun i : ℕ => a + (i : ℤ))

/-- `query(x, y, r)`: union of the cells whose coordinates fall in the
bounding box of the query circle. -/
def query {α : Type} (g : SpawnGrid α) (x y r : ℚ) : List α :=
  let c0x := cellCoord g.cellSize (x - r)
  let c0y := cellCoord g.cellSize (y - r)
  let c1x := cellCoord g.cellSize (x + r)
  let c1y := cellCoord g.cellSize (y + r)
  (intRange c0x c1x).flatMap (fun cx =>
    (intRange c0y c1y).flatMap (fun cy =>
      (g.cells.lookup (key cx cy)).getD []))

end SpawnGrid

/-! ## `World.js` — the zone-lifecycle orchestrator -/

/-- A reference to a spawn descriptor of the current zone (shared JS
object references are modelled as indices into the zone's arrays). -/
inductive SpawnRef where
  | enemy : ℕ → SpawnRef
  | elite : ℕ → SpawnRef
  | boss : SpawnRef
deriving Repr, DecidableEq

/-- A materialized entity (the fields of the externally constructed enemy
object that this core reads or writes). -/
structure Enemy where
  id : ℕ
  x : ℚ
  y : ℚ
  vx : ℚ := 0
  vy : ℚ := 0
  speed : ℚ := 0
  dead : Bool := false
  isElite : Bool := false
  isBoss : Bool := false
  level : ℕ := 1
  spawnRef : Option SpawnRef := none
  patrol : Option String := none
  patrolRadius : ℚ := 0
  patrolOrigin : ℚ × ℚ := (0, 0)
  patrolAngle : ℚ := 0
deriving Repr, DecidableEq

/-- `State.meta` (the fields this core touches). -/
structure Meta where
  worldSeed : Option ℕ := none
  runIndex : Option ℕ := none
  level : Option ℕ := none
  depth : Option DepthRec := none
  freshness : Option FreshSt := none
deriving Repr, DecidableEq

/-- `State.run` (the fields this core touches). -/
structure RunSt where
  seed : Option ℕ := none
  lootSerial : ℕ := 0
deriving Repr, DecidableEq

/-- `State.player` (the fields this core touches). -/
structure PlayerSt where
  x : ℚ := 0
  y : ℚ := 0
  vx : ℚ := 0
  vy : ℚ := 0
deriving Repr, DecidableEq

/-- `State.data` (the fields this core touches). -/
structure DataSt where
  acts : List (String × ActConfig) := []
  version : Option String := none
  freshnessCfg : FreshCfg := {}
deriving Repr, DecidableEq

/-- The `World.currentAct` object: the act config plus the `id` and
`seed` fields `init` assigns onto it. -/
structure ActRt where
  config : ActConfig
  id : String
  seed : ℕ
deriving Repr, DecidableEq

/-- The composite mutable state reachable from `World`: the orchestrator's
own fields plus the parts of the shared `State` object it touches.  The
entity factory (`Enemies.spawn`, an external collaborator) is modelled as
allocating a fresh id in `entities`; `ambient` is the `Math.random`
oracle consumed only by the `wander` patrol branch. -/
structure GameSt where
  data : DataSt := {}
  meta : Meta := {}
  run : RunSt := {}
  player : PlayerSt := {}
  camera : ℚ × ℚ := (0, 0)
  scene : String := ""
  canvasW : ℚ := 800
  canvasH : ℚ := 600
  currentAct : Option ActRt := none
  currentZone : Option Zone := none
  zoneIndex : ℕ := 0
  spawnRadius : ℚ := 600
  despawnRadius : ℚ := 1200
  activeEnemies : List ℕ := []
  entities : List (ℕ × Enemy) := []
  enemiesReg : List ℕ := []
  enemyGrid : Option (SpawnGrid ℕ) := none
  eliteGrid : Option (SpawnGrid ℕ) := none
  rngEncounters : Option SR := none
  spawnedEnemyCount : ℕ := 0
  spawnedEliteCount : ℕ := 0
  bossSpawned : Bool := false
  nextEnemyId : ℕ := 0
  ambient : ℕ → ℚ := fun _ => 0
  ambientIdx : ℕ := 0

namespace World

/-- Dereference a spawn-descriptor reference in a zone. -/
def getRef (z : Zone) : SpawnRef → Option SpawnDesc
  | .enemy i => z.enemySpawns.get? i
  | .elite i => z.eliteSpawns.get? i
  | .boss => z.bossSpawn

/-- Update the descriptor a reference points at. -/
def setRef (z : Zone) (r : SpawnRef) (f : SpawnDesc → SpawnDesc) : Zone :=
  match r with
  | .enemy i => { z with enemySpawns := z.enemySpawns.mapIdx (fun j d => if j = i then f d else d) }
  | .elite i => { z with eliteSpawns := z.eliteSpawns.mapIdx (fun j d => if j = i then f d else d) }
  | .boss => { z with bossSpawn := z.bossSpawn.map f }

/-- Position of the descriptor at index `i` (used to build the grids). -/
def descPos (l : List SpawnDesc) (i : ℕ) : ℚ × ℚ :=
  match l.get? i with
  | some d => (d.x, d.y)
  | none => (0, 0)

/-- `World.spawnEnemy(spawn, isElite)`: create the entity via the factory,
copy the patrol setup from the descriptor, draw the patrol angle from the
zone's encounter stream (or the ambient oracle when absent), flip the
descriptor's `active`/`enemyId`, and register the entity. -/
def spawnEnemy (jm : JsMath) (st : GameSt) (ref : SpawnRef) (isElite : Bool) : GameSt :=
  match st.currentZone with
  | none => st
  | some z =>
    match getRef z ref with
    | none => st
    | some d =>
      let id := st.nextEnemyId
      let depthv := if z.depth = 0 then natDF st.meta.level 1 else z.depth
      let rr : ℚ × GameSt :=
        match st.rngEncounters with
        | some g =>
          let p := g.next
          (p.1, { st with rngEncounters := some p.2 })
        | none => (st.ambient st.ambientIdx, { st with ambientIdx := st.ambientIdx + 1 })
      let st1 := rr.2
      let en : Enemy :=
        { id := id, x := d.x, y := d.y, isElite := isElite, level := depthv
          spawnRef := some ref, patrol := d.patrol, patrolRadius := d.patrolRadius
          patrolOrigin := (d.x, d.y), patrolAngle := rr.1 * jm.pi * 2 }
      let z' := setRef z ref (fun dd => { dd with active := true, enemyId := some id })
      { st1 with
        currentZone := some z'
        entities := st1.entities ++ [(id, en)]
        enemiesReg := st1.enemiesReg ++ [id]
        activeEnemies := st1.activeEnemies ++ [id]
        nextEnemyId := id + 1 }

/-- `World.spawnBoss(spawn)`: like `spawnEnemy` with the boss flag and no
patrol setup (the UI announcement is an external no-op on this state). -/
def spawnBoss (st : GameSt) : GameSt :=
  match st.currentZone with
  | none => st
  | some z =>
    match z.bossSpawn with
    | none => st
    | some d =>
      let id := st.nextEnemyId
      let depthv := if z.depth = 0 then natDF st.meta.level 1 else z.depth
      let en : Enemy := { id := id, x := d.x, y := d.y, isBoss := true, level := depthv
                          spawnRef := some .boss }
      let z' := { z with bossSpawn := some { d with active := true, enemyId := some id } }
      { st with
        currentZone := some z'
        entities := st.entities ++ [(id, en)]
        enemiesReg := st.enemiesReg ++ [id]
        activeEnemies := st.activeEnemies ++ [id]
        nextEnemyId := id + 1 }

/-- `World.despawnEnemy(spawn)`: remove the entity from `State.enemies`
(first id match on the descriptor's `enemyId`), reset the descriptor's
`active`/`enemyId`, and drop every active entity holding this
reference. -/
def despawnEnemy (st : GameSt) (ref : SpawnRef) : GameSt :=
  match st.currentZone with
  | none => st
  | some z =>
    match getRef z ref with
    | none => st
    | some d =>
      let reg := match d.enemyId with
        | some eid => st.enemiesReg.erase eid
        | none => st.enemiesReg
      let z' := setRef z ref (fun dd => { dd with active := false, enemyId := none })
      { st with
        currentZone := some z'
        enemiesReg := reg
        activeEnemies := st.activeEnemies.filter (fun i =>
          match st.entities.lookup i with
          | some en => en.spawnRef ≠ some ref
          | none => true) }

/-- The boss interval of `loadZone`: the act's configured zone count when
that is a positive number, else `4`. -/
def bossIntervalOf (a : ActConfig) : ℤ :=
  match a.zones with
  | some z => if 0 < z then z else 4
  | none => 4

/-- The layout macro-pack table of `loadZone`. -/
def layoutsW : List (String × ℚ) :=
  [("OPEN", 1.0), ("CLUTTERED", 0.9), ("CORRIDOR", 0.7), ("ARENA", 0.7), ("CRAMPED", 0.5)]

/-- The backdrop macro-pack table of `loadZone`. -/
def backdropsW : List (String × ℚ) :=
  [("A", 1.0), ("B", 0.9), ("C", 0.8), ("D", 0.7)]

/-- The layout×backdrop cross product with multiplied weights. -/
def macroPacks : List (String × String × ℚ) :=
  layoutsW.flatMap (fun l => backdropsW.map (fun b => (l.1, b.1, l.2 * b.2)))

/-- `World.loadZone(index)`: derive the seed bundle, run the milestone
check, sample modifiers, pick layout/backdrop through the freshness
sampler, generate the zone (boss or normal), rebuild both grids, place
the player and snap the camera, reset the per-zone counters.  (The
branch on a missing `currentAct` is unreachable from the embedded
callers; the source would throw there.) -/
def loadZone (jm : JsMath) (st : GameSt) (index : ℕ) : GameSt :=
  match st.currentAct with
  | none => st
  | some ar =>
    let depth := index + 1
    let zoneSeed := createZoneSeed ar.seed index
    let zs : SeedBundle :=
      { zone := zoneSeed
        macroSeed := seedFromParts [.n (zoneSeed : ℤ), .s "MACRO"]
        mesoSeed := seedFromParts [.n (zoneSeed : ℤ), .s "MESO"]
        microSeed := seedFromParts [.n (zoneSeed : ℤ), .s "MICRO"]
        modsSeed := seedFromParts [.n (zoneSeed : ℤ), .s "MODS"]
        encountersSeed := seedFromParts [.n (zoneSeed : ℤ), .s "ENCOUNTERS"]
        lootSeed := seedFromParts [.n (zoneSeed : ℤ), .s "LOOT"] }
    let unlockSeed := seedFromParts [.n (ar.seed : ℤ), .s "UNLOCK", .n (depth : ℤ)]
    let dr0 := st.meta.depth.getD {}
    let mu := DepthRules.maybeUnlock depth (some ar.config) dr0 (SR.mk' unlockSeed)
    let dr1 := DepthRules.recordDepth depth mu.2.1
    let isBoss : Bool := decide ((depth : ℤ) % bossIntervalOf ar.config = 0)
    let sa := DepthRules.sampleActive depth (some ar.config) dr1 (SR.mk' zs.modsSeed)
    let activeMods := sa.1
    let fCfg := st.data.freshnessCfg
    let fr1 := Freshness.ensure st.meta.freshness fCfg
    let penaltyBase := fCfg.penaltyBase.getD 0.25
    let biomeId := getDS ar.config.biome "space"
    let pk := Freshness.pick (SR.mk' zs.macroSeed) macroPacks (fun o => some o.2.2)
      (fun o => biomeId ++ "|" ++ o.1 ++ "|" ++ o.2.1) fr1 penaltyBase
    let layout := match pk.1 with
      | some sel => sel.1.1
      | none => "OPEN"
    let backdrop := match pk.1 with
      | some sel => sel.1.2.1
      | none => "A"
    let freshnessKey := biomeId ++ "|" ++ layout ++ "|" ++ backdrop
    let fr2 := Freshness.push fr1 freshnessKey
    let modsKey := if activeMods.isEmpty then "-"
      else String.intercalate "," (activeMods.mergeSort (fun a b => decide (a ≤ b)))
    let zoneSignature := freshnessKey ++ "|mods:" ++ modsKey ++ "|boss:" ++
      (if isBoss then "1" else "0")
    let opts : GenOpts := { depth := some depth, mods := some activeMods
                            layout := some layout, backdrop := some backdrop, seeds := some zs }
    let z0 := if isBoss then MapGenerator.generateBossZone jm ar.config zoneSeed opts
              else MapGenerator.generate jm ar.config zoneSeed opts
    let z := { z0 with
               depth := depth, mods := activeMods, layout := layout
               backdrop := backdrop, signature := zoneSignature, seeds := some zs }
    let cellSize : ℚ := max 200 st.spawnRadius
    let eg := SpawnGrid.build (SpawnGrid.new ℕ cellSize)
      (List.range z.enemySpawns.length) (descPos z.enemySpawns)
    let lg := SpawnGrid.build (SpawnGrid.new ℕ cellSize)
      (List.range z.eliteSpawns.length) (descPos z.eliteSpawns)
    let mapW := getDF (some z.width) 2000
    let mapH := getDF (some z.height) 2000
    let rawX := z.spawn.1 - st.canvasW / 2
    let rawY := z.spawn.2 - st.canvasH / 2
    let clampedX := max 0 (min (mapW - st.canvasW) rawX)
    let clampedY := max 0 (min (mapH - st.canvasH) rawY)
    { st with
      meta := { st.meta with depth := some dr1, freshness := some fr2 }
      currentZone := some z
      rngEncounters := some (SR.mk' zs.encountersSeed)
      enemyGrid := some eg
      eliteGrid := some lg
      zoneIndex := index
      activeEnemies := []
      player := { st.player with x := z.spawn.1, y := z.spawn.2, vx := 0, vy := 0 }
      camera := (clampedX, clampedY)
      spawnedEnemyCount := 0
      spawnedEliteCount := 0
      bossSpawned := false }

/-- `World.init(actId, seed)`: look up the act config; on a missing
config report the error (an external `console.error`) and return the
failure signal `false` with *no* state mutated; otherwise install the
act, derive its seed, and load zone 0. -/
def init (jm : JsMath) (st : GameSt) (actId : String) (seed : Option ℕ) : Bool × GameSt :=
  match st.data.acts.lookup actId with
  | none => (false, st)
  | some cfg =>
    let fallback := seedFromParts
      [.n ((natDF st.meta.worldSeed 0 : ℕ) : ℤ), .s "ACT", .s actId,
       .n ((natDF st.meta.runIndex 0 : ℕ) : ℤ), .s ((st.data.version).getD "0")]
    let actSeed : ℕ :=
      match seed with
      | some s => natU32 s
      | none =>
        match st.run.seed with
        | some rs => if rs = 0 then fallback else natU32 rs
        | none => fallback
    let st1 := { st with currentAct := some ⟨cfg, actId, actSeed⟩, zoneIndex := 0 }
    (true, loadZone jm st1 0)

/-- One step of the proximity-spawn passes of `update` (enemy and elite
candidates): skip killed descriptors, materialize a dormant descriptor
within `spawnRadius` of the player. -/
def spawnPassStep (jm : JsMath) (s : GameSt) (ref : SpawnRef) (isElite : Bool) : GameSt :=
  match s.currentZone with
  | none => s
  | some z =>
    match getRef z ref with
    | none => s
    | some d =>
      if d.killed then s
      else if !d.active && distSqLt (s.player.x - d.x) (s.player.y - d.y) s.spawnRadius then
        spawnEnemy jm s ref isElite
      else s

/-- One step of the despawn pass of `update`: a live entity whose
descriptor is active and whose distance to the player exceeds
`despawnRadius` is despawned. -/
def despawnStep (s : GameSt) (eid : ℕ) : GameSt :=
  match s.entities.lookup eid with
  | none => s
  | some en =>
    if en.dead then s
    else
      match en.spawnRef with
      | none => s
      | some ref =>
        let activeNow :=
          match s.currentZone with
          | some z => ((getRef z ref).map (·.active)).getD false
          | none => false
        if activeNow && distSqGt (s.player.x - en.x) (s.player.y - en.y) s.despawnRadius then
          despawnEnemy s ref
        else s

/-- The boss check of `update`: a dormant, unkilled boss within
`1.5 × spawnRadius` of the player is materialized. -/
def bossPass (s : GameSt) : GameSt :=
  match s.currentZone with
  | none => s
  | some z =>
    match z.bossSpawn with
    | none => s
    | some bs =>
      if bs.killed then s
      else if !bs.active &&
          distSqLt (s.player.x - bs.x) (s.player.y - bs.y) (s.spawnRadius * 1.5) then
        spawnBoss s
      else s

/-- The exit check of `update`: within 50 units of the exit the next zone
is loaded. -/
def exitPass (jm : JsMath) (s : GameSt) : GameSt :=
  match s.currentZone with
  | none => s
  | some z =>
    match z.exit with
    | none => s
    | some ex =>
      if distSqLt (s.player.x - ex.1) (s.player.y - ex.2) 50 then
        loadZone jm s (s.zoneIndex + 1)
      else s

/-- `World.onPortalEnter(portal)` for one portal within 60 units. -/
def portalStep (jm : JsMath) (s : GameSt) (p : Portal) : GameSt :=
  if distSqLt (s.player.x - p.x) (s.player.y - p.y) 60 then
    if p.destination = "hub" then { s with scene := "hub" }
    else if p.destination ≠ "" then (init jm s p.destination none).2
    else s
  else s

/-- The portal check of `update`. -/
def portalPass (jm : JsMath) (s : GameSt) : GameSt :=
  match s.currentZone with
  | none => s
  | some z => z.portals.foldl (portalStep jm) s

/-- Write an entity back into the store. -/
def updEntity (s : GameSt) (eid : ℕ) (en : Enemy) : GameSt :=
  { s with entities := s.entities.map (fun p => if p.1 = eid then (eid, en) else p) }

/-- One step of `updateEnemyPatrols`: `circle` and `line` are pure
functions of the accumulated angle; `wander` draws from the ambient
`Math.random` oracle; `static` (or any other tag) does nothing. -/
def patrolStep (jm : JsMath) (dt : ℚ) (s : GameSt) (eid : ℕ) : GameSt :=
  match s.entities.lookup eid with
  | none => s
  | some en =>
    if en.dead then s
    else
      match en.patrol with
      | none => s
      | some pat =>
        if pat = "" then s
        else if pat = "circle" then
          let a := en.patrolAngle + dt * 0.5
          updEntity s eid { en with
            patrolAngle := a
            x := en.patrolOrigin.1 + jm.cos a * en.patrolRadius
            y := en.patrolOrigin.2 + jm.sin a * en.patrolRadius }
        else if pat = "line" then
          let a := en.patrolAngle + dt * 0.8
          updEntity s eid { en with
            patrolAngle := a
            x := en.patrolOrigin.1 + jm.sin a * en.patrolRadius }
        else if pat = "wander" then
          let r1 := s.ambient s.ambientIdx
          let c := decide (r1 < dt * 0.5)
          let en1 := if c then
              { en with
                vx := (s.ambient (s.ambientIdx + 1) - 0.5) * en.speed
                vy := (s.ambient (s.ambientIdx + 2) - 0.5) * en.speed }
            else en
          let idx2 := if c then s.ambientIdx + 3 else s.ambientIdx + 1
          let en2 := if distSqGt (en1.x - en1.patrolOrigin.1) (en1.y - en1.patrolOrigin.2)
              en1.patrolRadius then
              let ang := jm.atan2 (en1.patrolOrigin.2 - en1.y) (en1.patrolOrigin.1 - en1.x)
              { en1 with
                vx := jm.cos ang * en1.speed * 0.5
                vy := jm.sin ang * en1.speed * 0.5 }
            else en1
          updEntity { s with ambientIdx := idx2 } eid en2
        else s

/-- `World.update(dt)`: enemy spawn pass, despawn pass over a snapshot of
the active list, elite spawn pass, boss check, exit check, portal check,
patrol update — in the source's order. -/
def update (jm : JsMath) (st0 : GameSt) (dt : ℚ) : GameSt :=
  match st0.currentZone with
  | none => st0
  | some z0 =>
    let enemyCands : List ℕ :=
      match st0.enemyGrid with
      | some g => g.query st0.player.x st0.player.y st0.spawnRadius
      | none => List.range z0.enemySpawns.length
    let st1 := enemyCands.foldl (fun s i => spawnPassStep jm s (.enemy i) false) st0
    let st2 := st1.activeEnemies.foldl despawnStep st1
    let eliteCands : List ℕ :=
      match st2.eliteGrid with
      | some g => g.query st2.player.x st2.player.y st2.spawnRadius
      | none => (st2.currentZone.map (fun z => List.range z.eliteSpawns.length)).getD []
    let st3 := eliteCands.foldl (fun s i => spawnPassStep jm s (.elite i) true) st2
    let st4 := bossPass st3
    let st5 := exitPass jm st4
    let st6 := portalPass jm st5
    st6.activeEnemies.foldl (patrolStep jm dt) st6

end World

/-! ## `Bullets.js` — per-drop loot seed -/

namespace Bullets

/-- The per-drop item seed of `checkLootDrop`:
`seedFromParts(runSeed, 'ITEM', lootSerial, killX | 0, killY | 0, depth)`
(`runSeed` being `State.run?.seed || State.meta.worldSeed || 0`, the
serial the post-increment value of the per-run counter). -/
def itemSeedOf (runSeed : ℕ) (serial : ℕ) (killX killY : ℚ) (depth : ℕ) : ℕ :=
  seedFromParts [.n (runSeed : ℤ), .s "ITEM", .n (serial : ℤ),
                 .n (jsOr0 killX), .n (jsOr0 killY), .n (depth : ℤ)]

end Bullets

/-! ## Nonnegativity predicates on configuration (used as hypotheses) -/

/-- A width/height range specification denoting a nonnegative dimension
(a well-formed act configuration). -/
def RangeSpec.NonnegSpec : RangeSpec → Prop
  | .arr a b => 0 ≤ a ∧ a ≤ b
  | .num v => 0 ≤ v
  | .missing => True

/-! ## Concrete instances (for witnesses and counterexamples) -/

/-- A concrete stand-in for the ambient `Math` object's transcendental
members (their values are irrelevant to every property below). -/
def jm0 : JsMath := ⟨0, fun _ => 0, fun _ => 0, fun _ _ => 0⟩

/-- An act configuration with a tiny numeric arena (`width = height = 10`),
legal per the source's `pickRange` (`typeof v === 'number'`). -/
def cfgTiny : ActConfig :=
  { generation := some { width := .num 10, height := .num 10 } }

/-- An act configuration with four zones per act. -/
def actCfg4 : ActConfig := { zones := some 4 }

/-- A current act built from `actCfg4`. -/
def actRt4 : ActRt := ⟨actCfg4, "act1", 42⟩

/-- An orchestrator state with `actRt4` installed. -/
def stAct4 : GameSt := { currentAct := some actRt4 }

/-- An empty parallax description. -/
def parEmpty : Parallax :=
  { background := { color := "#0a0a15", stars := [], scrollSpeed := 0.1 }
    midground := { stars := [], scrollSpeed := 0.3 }
    foreground := { objects := [], scrollSpeed := 0.6 } }

/-- A materialized boss descriptor at the origin. -/
def bossDescOn : SpawnDesc :=
  { x := 0, y := 0, type := some "sentinel", active := true, killed := false, enemyId := some 1 }

/-- A boss-zone snapshot with the boss materialized. -/
def zoneBossOn : Zone :=
  { seed := 0, width := 1200, height := 1000, biome := some "space", isBossZone := true
    spawn := (600, 900), exit := none, bossSpawn := some bossDescOn
    parallax := parEmpty, depth := 4 }

/-- The materialized boss entity backing `bossDescOn`. -/
def bossEnt : Enemy := { id := 1, x := 0, y := 0, isBoss := true, level := 4, spawnRef := some .boss }

/-- An orchestrator state in a boss zone with the boss materialized and
the player 2000 units away (beyond `despawnRadius = 1200`). -/
def stBossFar : GameSt :=
  { currentAct := some actRt4, currentZone := some zoneBossOn
    player := { x := 2000, y := 0 }
    activeEnemies := [1], entities := [(1, bossEnt)], enemiesReg := [1]
    enemyGrid := some ⟨600, []⟩, eliteGrid := some ⟨600, []⟩, nextEnemyId := 2 }

/-- A boss-zone snapshot with the boss still dormant. -/
def zoneBossOff : Zone :=
  { zoneBossOn with bossSpawn := some { bossDescOn with active := false, enemyId := none } }

/-- An orchestrator state in a boss zone with the boss dormant and the
player 100√2 units away (inside `1.5 × spawnRadius = 900`). -/
def stBossNear : GameSt :=
  { currentAct := some actRt4, currentZone := some zoneBossOff
    player := { x := 100, y := 100 }
    activeEnemies := [], entities := [], enemiesReg := []
    enemyGrid := some ⟨600, []⟩, eliteGrid := some ⟨600, []⟩, nextEnemyId := 2 }

/-! ## Basic bounds -/

lemma natU32_lt (n : ℕ) : natU32 n < 4294967296 := Nat.mod_lt _ (by norm_num)

lemma toU32_lt (z : ℤ) : toU32 z < 4294967296 := by
  unfold toU32
  have h1 : 0 ≤ z % 4294967296 := Int.emod_nonneg z (by norm_num)
  have h2 : z % 4294967296 < 4294967296 := Int.emod_lt_of_pos z (by norm_num)
  omega

lemma mixSeed_lt (s v : ℕ) : mixSeed s v < 4294967296 := Nat.mod_lt _ (by norm_num)

lemma SR.out32_lt (s : ℕ) : SR.out32 s < 4294967296 := Nat.mod_lt _ (by norm_num)

lemma SR.next_fst_nonneg (g : SR) : 0 ≤ g.next.1 := by
  unfold SR.next
  positivity

lemma SR.next_fst_lt_one (g : SR) : g.next.1 < 1 := by
  unfold SR.next
  rw [div_lt_one (by norm_num)]
  exact_mod_cast SR.out32_lt _

lemma SR.range_fst_ge (g : SR) {mn mx : ℚ} (h : mn ≤ mx) : mn ≤ (g.range mn mx).1 := by
  show mn ≤ mn + g.next.1 * (mx - mn)
  have h1 := g.next_fst_nonneg
  nlinarith

lemma SR.range_fst_le (g : SR) {mn mx : ℚ} (h : mn ≤ mx) : (g.range mn mx).1 ≤ mx := by
  show mn + g.next.1 * (mx - mn) ≤ mx
  have h1 := g.next_fst_nonneg
  have h2 := g.next_fst_lt_one
  nlinarith

lemma SR.int_fst_nonneg (g : SR) {mn mx : ℚ} (h0 : 0 ≤ mn) (h : mn ≤ mx + 1) :
    0 ≤ (g.int mn mx).1 := by
  unfold SR.int
  exact Int.floor_nonneg.mpr (le_trans h0 (g.range_fst_ge h))

/-! ## Loop lengths of the generator -/

lemma genEliteGo_length (pool : List String) (w h : ℚ) :
    ∀ (n : ℕ) (acc : List SpawnDesc) (g : SR),
      ((MapGenerator.genEliteGo pool w h n acc g).1).length = acc.length + n := by
  intro n
  induction n with
  | zero => intro acc g; simp [MapGenerator.genEliteGo]
  | succ k ih =>
    intro acc g
    simp only [MapGenerator.genEliteGo]
    rw [ih]
    simp
    omega

lemma genObsGo_length (jm : JsMath) (depth : ℕ) (mods : List String) (layout : String)
    (w h : ℚ) : ∀ (n : ℕ) (acc : List Obstacle) (g : SR),
      ((MapGenerator.genObsGo jm depth mods layout w h n acc g).1).length = acc.length + n := by
  intro n
  induction n with
  | zero => intro acc g; simp [MapGenerator.genObsGo]
  | succ k ih =>
    intro acc g
    simp only [MapGenerator.genObsGo]
    rw [ih]
    simp
    omega

lemma genEnemyGo_length (pool : List String) (w h : ℚ) (sp ex : ℚ × ℚ) (layout : String)
    (count : ℤ) : ∀ (fuel : ℕ) (acc : List SpawnDesc) (g : SR),
      acc.length ≤ count.toNat →
      ((MapGenerator.genEnemyGo pool w h sp ex layout count fuel acc g).1).length ≤ count.toNat := by
  intro fuel
  induction fuel with
  | zero => intro acc g hacc; simpa [MapGenerator.genEnemyGo] using hacc
  | succ k ih =>
    intro acc g hacc
    simp only [MapGenerator.genEnemyGo]
    split_ifs
    all_goals
      first
        | exact hacc
        | exact ih _ _ hacc
        | (apply ih
           simp only [List.length_append, List.length_cons, List.length_nil]
           omega)

/-! ## Density caps and dimension bounds of `genParams` -/

lemma floorq_nonneg {q : ℚ} (h : 0 ≤ q) : (0 : ℚ) ≤ ((⌊q⌋ : ℤ) : ℚ) := by
  exact_mod_cast Int.floor_nonneg.mpr h

lemma pickRange_nonneg (g : SR) (v : RangeSpec) (hv : v.NonnegSpec) :
    0 ≤ (MapGenerator.pickRange g v 1500 3000).1 := by
  cases v with
  | arr a b =>
    obtain ⟨ha, hab⟩ := hv
    show (0 : ℚ) ≤ ((g.int a b).1 : ℚ)
    have := g.int_fst_nonneg ha (by linarith)
    exact_mod_cast this
  | num x => exact hv
  | missing =>
    show (0 : ℚ) ≤ ((g.int 1500 3000).1 : ℚ)
    have := @SR.int_fst_nonneg g 1500 3000 (by norm_num) (by norm_num)
    exact_mod_cast this

lemma genParams_eD_le (cfg : GenCfg) (depth : ℕ) (mods : List String) (layout : String)
    (g : SR) : (MapGenerator.genParams cfg depth mods layout g).1.eD ≤ 0.0012 :=
  min_le_right _ _

lemma genParams_elD_le (cfg : GenCfg) (depth : ℕ) (mods : List String) (layout : String)
    (g : SR) : (MapGenerator.genParams cfg depth mods layout g).1.elD ≤ 0.00025 :=
  min_le_right _ _

lemma genParams_oD_le (cfg : GenCfg) (depth : ℕ) (mods : List String) (layout : String)
    (g : SR) : (MapGenerator.genParams cfg depth mods layout g).1.oD ≤ 0.0008 :=
  min_le_right _ _

lemma layoutAdjust_nonneg (layout : String) {w0 h0 : ℚ} (hw : 0 ≤ w0) (hh : 0 ≤ h0)
    (e2 el1 o2 : ℚ) :
    0 ≤ (MapGenerator.layoutAdjust layout w0 h0 e2 el1 o2).1 ∧
    0 ≤ (MapGenerator.layoutAdjust layout w0 h0 e2 el1 o2).2.1 := by
  unfold MapGenerator.layoutAdjust
  split_ifs <;> exact ⟨by first | assumption | exact floorq_nonneg (by nlinarith),
                       by first | assumption | exact floorq_nonneg (by nlinarith)⟩

lemma crampShrink_nonneg {cm w h : ℚ} (hcm : 0 ≤ cm) (hw : 0 ≤ w) (hh : 0 ≤ h) :
    0 ≤ (MapGenerator.crampShrink cm w h).1 ∧ 0 ≤ (MapGenerator.crampShrink cm w h).2 := by
  unfold MapGenerator.crampShrink
  split_ifs <;>
    exact ⟨by first | assumption | exact floorq_nonneg (mul_nonneg hw hcm),
           by first | assumption | exact floorq_nonneg (mul_nonneg hh hcm)⟩

lemma genParams_dims_nonneg (cfg : GenCfg) (depth : ℕ) (mods : List String) (layout : String)
    (g : SR) (hw : cfg.width.NonnegSpec) (hh : cfg.height.NonnegSpec) :
    0 ≤ (MapGenerator.genParams cfg depth mods layout g).1.w ∧
    0 ≤ (MapGenerator.genParams cfg depth mods layout g).1.h := by
  have hw0 := pickRange_nonneg g cfg.width hw
  have hh0 := pickRange_nonneg (MapGenerator.pickRange g cfg.width 1500 3000).2 cfg.height hh
  have hcm : (0 : ℚ) ≤ if mods.contains "CRAMPED_ZONE" then 0.85 else 1.0 := by
    split_ifs <;> norm_num
  constructor
  · exact (crampShrink_nonneg hcm (layoutAdjust_nonneg layout hw0 hh0 _ _ _).1
      (layoutAdjust_nonneg layout hw0 hh0 _ _ _).2).1
  · exact (crampShrink_nonneg hcm (layoutAdjust_nonneg layout hw0 hh0 _ _ _).1
      (layoutAdjust_nonneg layout hw0 hh0 _ _ _).2).2

lemma one_le_len_nil_add_toNat_max (x : ℤ) :
    1 ≤ ([] : List SpawnDesc).length + (max 1 x).toNat := by
  simp only [List.length_nil, Nat.zero_add]
  omega

/-! ## Claim theorems (part 1) -/

/-- **C1** — Zone generation is deterministic: the generator (normal and
boss variant) is a pure function of the act configuration, zone seed and
options (depth, modifier list, layout/backdrop tags, seed bundle); two
calls with identical inputs yield identical zones (hence the same spawn
counts, positions, types, obstacles and decorations, in the same order).
The embedding exhibits the generator as a total function of exactly these
arguments — no ambient randomness or mutable state occurs in it. -/
theorem claim_C1_generate_deterministic (jm : JsMath) (cfg cfg' : ActConfig)
    (s s' : ℕ) (o o' : GenOpts) (h1 : cfg = cfg') (h2 : s = s') (h3 : o = o') :
    MapGenerator.generate jm cfg s o = MapGenerator.generate jm cfg' s' o' ∧
    MapGenerator.generateBossZone jm cfg s o = MapGenerator.generateBossZone jm cfg' s' o' := by
  subst h1; subst h2; subst h3
  exact ⟨rfl, rfl⟩

/-- Witness for C1 at a concrete input. -/
theorem claim_C1_generate_deterministic_witness :
    MapGenerator.generate jm0 cfgTiny 42 {} = MapGenerator.generate jm0 cfgTiny 42 {} ∧
    MapGenerator.generateBossZone jm0 cfgTiny 42 {} =
      MapGenerator.generateBossZone jm0 cfgTiny 42 {} :=
  claim_C1_generate_deterministic jm0 cfgTiny cfgTiny 42 42 {} {} rfl rfl rfl

/-- **C10** — Every non-boss generated zone contains at least one elite
spawn descriptor: the elite count is `max(1, floor(width*height*density))`,
so the elite list is non-empty for every act configuration, depth,
modifier set and layout, even at arbitrarily small area or zero
density. -/
theorem claim_C10_elite_never_empty (jm : JsMath) (cfg : ActConfig) (zoneSeed : ℕ)
    (o : GenOpts) : 1 ≤ (MapGenerator.generate jm cfg zoneSeed o).eliteSpawns.length := by
  show 1 ≤ ((MapGenerator.generateEliteSpawns _ _ _ _ _).1).length
  simp only [MapGenerator.generateEliteSpawns]
  rw [genEliteGo_length]
  exact one_le_len_nil_add_toNat_max _

/-- **C9** — Init failure atomicity: when the act configuration for the
requested act id is absent, `World.init` returns the failure signal
`false` (without throwing — the embedding is total) and the entire state
is returned unchanged; in particular the current act, current zone, zone
index and player position are exactly as before the call. -/
theorem claim_C9_init_failure_atomic (jm : JsMath) (st : GameSt) (actId : String)
    (seed : Option ℕ) (h : st.data.acts.lookup actId = none) :
    World.init jm st actId seed = (false, st) := by
  unfold World.init
  rw [h]

/-- Witness for C9 at a concrete state with no configured acts. -/
theorem claim_C9_init_failure_atomic_witness :
    (({} : GameSt).data.acts.lookup "act1" = none) ∧
    World.init jm0 {} "act1" none = (false, {}) :=
  ⟨rfl, claim_C9_init_failure_atomic jm0 {} "act1" none rfl⟩

lemma maybeUnlock_noop (depth : ℕ) (act : Option ActConfig) (m : DepthRec) (g : SR)
    (h : depth < DepthRules.UNLOCK_EVERY_DEPTH ∨
      depth / DepthRules.UNLOCK_EVERY_DEPTH * DepthRules.UNLOCK_EVERY_DEPTH ≤ m.lastUnlockAt) :
    DepthRules.maybeUnlock depth act m g = (none, m, g) := by
  by_cases hd : depth < DepthRules.UNLOCK_EVERY_DEPTH
  · simp only [DepthRules.maybeUnlock]
    rw [if_pos hd]
  · rcases h with h | h
    · exact absurd h hd
    · simp only [DepthRules.maybeUnlock]
      rw [if_neg hd, if_pos h]

lemma maybeUnlock_last (depth : ℕ) (act : Option ActConfig) (m : DepthRec) (g : SR)
    (hd : ¬depth < DepthRules.UNLOCK_EVERY_DEPTH)
    (hm : ¬depth / DepthRules.UNLOCK_EVERY_DEPTH * DepthRules.UNLOCK_EVERY_DEPTH
        ≤ m.lastUnlockAt) :
    (DepthRules.maybeUnlock depth act m g).2.1.lastUnlockAt
      = depth / DepthRules.UNLOCK_EVERY_DEPTH * DepthRules.UNLOCK_EVERY_DEPTH := by
  simp only [DepthRules.maybeUnlock]
  rw [if_neg hd, if_neg hm]
  split_ifs
  · rfl
  · split <;> rfl

lemma maybeUnlock_len (depth : ℕ) (act : Option ActConfig) (m : DepthRec) (g : SR) :
    (DepthRules.maybeUnlock depth act m g).2.1.unlocked.length ≤ m.unlocked.length + 1 := by
  simp only [DepthRules.maybeUnlock]
  split_ifs <;> try split
  all_goals simp

/-- **C8** — Milestone unlock idempotence: for every depth and starting
modifier record, running the milestone unlock check twice in succession
at the same depth appends at most one modifier id in total to the
unlocked set, and the second call always returns `null` (after the first
call the recorded last-unlock boundary covers the milestone). -/
theorem claim_C8_milestone_idempotent (depth : ℕ) (act : Option ActConfig)
    (m : DepthRec) (g : SR) :
    (DepthRules.maybeUnlock depth act
        (DepthRules.maybeUnlock depth act m g).2.1
        (DepthRules.maybeUnlock depth act m g).2.2).1 = none ∧
    (DepthRules.maybeUnlock depth act
        (DepthRules.maybeUnlock depth act m g).2.1
        (DepthRules.maybeUnlock depth act m g).2.2).2.1.unlocked.length
      ≤ m.unlocked.length + 1 := by
  by_cases hd : depth < DepthRules.UNLOCK_EVERY_DEPTH
  · rw [maybeUnlock_noop depth act _ _ (Or.inl hd)]
    exact ⟨rfl, maybeUnlock_len depth act m g⟩
  · by_cases hm : depth / DepthRules.UNLOCK_EVERY_DEPTH * DepthRules.UNLOCK_EVERY_DEPTH
        ≤ m.lastUnlockAt
    · rw [maybeUnlock_noop depth act m g (Or.inr hm)]
      rw [maybeUnlock_noop depth act m g (Or.inr hm)]
      exact ⟨rfl, Nat.le_succ _⟩
    · have hl := maybeUnlock_last depth act m g hd hm
      rw [maybeUnlock_noop depth act _ _ (Or.inr (le_of_eq hl.symm))]
      exact ⟨rfl, maybeUnlock_len depth act m g⟩

lemma generateEnemySpawns_length_le (g : SR) (pool : List String) (density w h : ℚ)
    (sp ex : ℚ × ℚ) (layout : String) :
    ((MapGenerator.generateEnemySpawns g pool density w h sp ex layout).1).length
      ≤ (⌊w * h * density⌋).toNat := by
  simp only [MapGenerator.generateEnemySpawns]
  exact genEnemyGo_length _ _ _ _ _ _ _ _ [] g (by simp)

lemma generateObstacles_length (jm : JsMath) (g : SR) (density w h : ℚ) (depth : ℕ)
    (mods : List String) (layout : String) :
    ((MapGenerator.generateObstacles jm g density w h depth mods layout).1).length
      = (⌊w * h * density⌋).toNat := by
  simp only [MapGenerator.generateObstacles]
  rw [genObsGo_length]
  simp

lemma generateEliteSpawns_length (g : SR) (pool : List String) (density w h : ℚ) :
    ((MapGenerator.generateEliteSpawns g pool density w h).1).length
      = (max 1 ⌊w * h * density⌋).toNat := by
  simp only [MapGenerator.generateEliteSpawns]
  rw [genEliteGo_length]
  simp

lemma toNat_floor_le_of_density {A d cap : ℚ} (hA : 0 ≤ A) (hd : d ≤ cap) (hcap : 0 ≤ cap) :
    ((⌊A * d⌋.toNat : ℕ) : ℚ) ≤ A * cap := by
  rcases le_or_lt (⌊A * d⌋) 0 with h0 | h0
  · rw [Int.toNat_of_nonpos h0]
    simpa using mul_nonneg hA hcap
  · have h1 : ((⌊A * d⌋.toNat : ℕ) : ℚ) = ((⌊A * d⌋ : ℤ) : ℚ) := by
      exact_mod_cast Int.toNat_of_nonneg (le_of_lt h0)
    rw [h1]
    calc ((⌊A * d⌋ : ℤ) : ℚ) ≤ A * d := Int.floor_le _
      _ ≤ A * cap := mul_le_mul_of_nonneg_left hd hA

lemma caps_core (g1 g2 g3 : SR) (jm : JsMath) (pool epool : List String)
    (gp : MapGenerator.GP) (sp ex : ℚ × ℚ) (layout : String) (depth : ℕ)
    (mods : List String) (hw : 0 ≤ gp.w) (hh : 0 ≤ gp.h) (he : gp.eD ≤ 0.0012)
    (hel : gp.elD ≤ 0.00025) (ho : gp.oD ≤ 0.0008) :
    (((MapGenerator.generateEnemySpawns g1 pool gp.eD gp.w gp.h sp ex layout).1).length : ℚ)
        ≤ gp.w * gp.h * 0.0012 ∧
    (((MapGenerator.generateObstacles jm g2 gp.oD gp.w gp.h depth mods layout).1).length : ℚ)
        ≤ gp.w * gp.h * 0.0008 ∧
    (((MapGenerator.generateEliteSpawns g3 epool gp.elD gp.w gp.h).1).length : ℚ)
        ≤ max 1 (gp.w * gp.h * 0.00025) := by
  have hA : 0 ≤ gp.w * gp.h := mul_nonneg hw hh
  refine ⟨?_, ?_, ?_⟩
  · calc (((MapGenerator.generateEnemySpawns g1 pool gp.eD gp.w gp.h sp ex layout).1).length : ℚ)
        ≤ ((⌊gp.w * gp.h * gp.eD⌋.toNat : ℕ) : ℚ) := by
          exact_mod_cast generateEnemySpawns_length_le g1 pool gp.eD gp.w gp.h sp ex layout
      _ ≤ gp.w * gp.h * 0.0012 := toNat_floor_le_of_density hA he (by norm_num)
  · rw [generateObstacles_length]
    exact toNat_floor_le_of_density hA ho (by norm_num)
  · rw [generateEliteSpawns_length]
    have h1 : (0 : ℤ) ≤ max 1 ⌊gp.w * gp.h * gp.elD⌋ := le_trans zero_le_one (le_max_left _ _)
    have h2 : (((max 1 ⌊gp.w * gp.h * gp.elD⌋).toNat : ℕ) : ℚ)
        = ((max 1 ⌊gp.w * gp.h * gp.elD⌋ : ℤ) : ℚ) := by
      exact_mod_cast Int.toNat_of_nonneg h1
    rw [h2, Int.cast_max]
    push_cast
    refine max_le_max le_rfl ?_
    calc ((⌊gp.w * gp.h * gp.elD⌋ : ℤ) : ℚ) ≤ gp.w * gp.h * gp.elD := Int.floor_le _
      _ ≤ gp.w * gp.h * 0.00025 := mul_le_mul_of_nonneg_left hel hA

/-- **C2 (amended)** — Density caps after modifier stacking: for every act
configuration with nonnegative width/height specification, every depth,
modifier combination and layout, the generated zone satisfies
`enemy count ≤ width*height*0.0012` and
`obstacle count ≤ width*height*0.0008`; the elite count satisfies
`elite count ≤ max 1 (width*height*0.00025)` — the elite cap as stated in
the claim holds only when `width*height*0.00025 ≥ 1`, because the source
forces at least one elite spawn (`max(1, ...)`). -/
theorem claim_C2_caps_amended (jm : JsMath) (cfg : ActConfig) (zoneSeed : ℕ) (o : GenOpts)
    (hw : (cfg.generation.getD {}).width.NonnegSpec)
    (hh : (cfg.generation.getD {}).height.NonnegSpec) :
    ((MapGenerator.generate jm cfg zoneSeed o).enemySpawns.length : ℚ)
        ≤ (MapGenerator.generate jm cfg zoneSeed o).width
          * (MapGenerator.generate jm cfg zoneSeed o).height * 0.0012 ∧
    ((MapGenerator.generate jm cfg zoneSeed o).obstacles.length : ℚ)
        ≤ (MapGenerator.generate jm cfg zoneSeed o).width
          * (MapGenerator.generate jm cfg zoneSeed o).height * 0.0008 ∧
    ((MapGenerator.generate jm cfg zoneSeed o).eliteSpawns.length : ℚ)
        ≤ max 1 ((MapGenerator.generate jm cfg zoneSeed o).width
          * (MapGenerator.generate jm cfg zoneSeed o).height * 0.00025) := by
  have hdims := genParams_dims_nonneg (cfg.generation.getD {}) (natDF o.depth 1)
      (o.mods.getD []) (getDS o.layout "OPEN")
      (SR.mk' ((o.seeds.map (fun sb => sb.mesoSeed)).getD zoneSeed)) hw hh
  have he := genParams_eD_le (cfg.generation.getD {}) (natDF o.depth 1)
      (o.mods.getD []) (getDS o.layout "OPEN")
      (SR.mk' ((o.seeds.map (fun sb => sb.mesoSeed)).getD zoneSeed))
  have hel := genParams_elD_le (cfg.generation.getD {}) (natDF o.depth 1)
      (o.mods.getD []) (getDS o.layout "OPEN")
      (SR.mk' ((o.seeds.map (fun sb => sb.mesoSeed)).getD zoneSeed))
  have ho := genParams_oD_le (cfg.generation.getD {}) (natDF o.depth 1)
      (o.mods.getD []) (getDS o.layout "OPEN")
      (SR.mk' ((o.seeds.map (fun sb => sb.mesoSeed)).getD zoneSeed))
  exact caps_core _ _ _ jm _ _ _ _ _ _ _ _ hdims.1 hdims.2 he hel ho

/-- **C2 (counterexample)** — The claim as stated fails on the elite cap:
with the act configuration `cfgTiny` (numeric `width = height = 10`, a
legal configuration for `pickRange`), the generated zone has area `100`,
so the claimed bound is `100 * 0.00025 = 0.025`, but
`generateEliteSpawns` forces `max(1, floor(100*eliteDensity)) = 1` elite
spawn. -/
theorem claim_C2_caps_counterexample :
    ¬ (((MapGenerator.generate jm0 cfgTiny 42 {}).eliteSpawns.length : ℚ)
        ≤ (MapGenerator.generate jm0 cfgTiny 42 {}).width
          * (MapGenerator.generate jm0 cfgTiny 42 {}).height * 0.00025) := by
  have h1 : (MapGenerator.generate jm0 cfgTiny 42 {}).eliteSpawns.length = 1 := by
    with_unfolding_all rfl
  have h2 : (MapGenerator.generate jm0 cfgTiny 42 {}).width = 10 := by
    with_unfolding_all rfl
  have h3 : (MapGenerator.generate jm0 cfgTiny 42 {}).height = 10 := by
    with_unfolding_all rfl
  rw [h1, h2, h3]
  norm_num

/-- Witness for the amended C2 at the concrete tiny configuration. -/
theorem claim_C2_caps_amended_witness :
    ((cfgTiny.generation.getD {}).width.NonnegSpec ∧
     (cfgTiny.generation.getD {}).height.NonnegSpec) ∧
    (((MapGenerator.generate jm0 cfgTiny 42 {}).enemySpawns.length : ℚ)
        ≤ (MapGenerator.generate jm0 cfgTiny 42 {}).width
          * (MapGenerator.generate jm0 cfgTiny 42 {}).height * 0.0012 ∧
     ((MapGenerator.generate jm0 cfgTiny 42 {}).obstacles.length : ℚ)
        ≤ (MapGenerator.generate jm0 cfgTiny 42 {}).width
          * (MapGenerator.generate jm0 cfgTiny 42 {}).height * 0.0008 ∧
     ((MapGenerator.generate jm0 cfgTiny 42 {}).eliteSpawns.length : ℚ)
        ≤ max 1 ((MapGenerator.generate jm0 cfgTiny 42 {}).width
          * (MapGenerator.generate jm0 cfgTiny 42 {}).height * 0.00025)) :=
  ⟨⟨by norm_num [cfgTiny, RangeSpec.NonnegSpec], by norm_num [cfgTiny, RangeSpec.NonnegSpec]⟩,
   claim_C2_caps_amended jm0 cfgTiny 42 {}
     (by norm_num [cfgTiny, RangeSpec.NonnegSpec]) (by norm_num [cfgTiny, RangeSpec.NonnegSpec])⟩

/-! ## Injectivity of the seed-derivation chain (C7) -/

lemma shiftRight_le' (n m : ℕ) : n >>> m ≤ n := by
  rw [Nat.shiftRight_eq_div_pow]
  exact Nat.div_le_self n (2 ^ m)

lemma xor_lt_u32 {x y : ℕ} (hx : x < 4294967296) (hy : y < 4294967296) :
    x ^^^ y < 4294967296 := by
  have h : (4294967296 : ℕ) = 2 ^ 32 := by norm_num
  rw [h] at hx hy ⊢
  exact Nat.xor_lt_two_pow hx hy

lemma xorshift_lt {x k : ℕ} (hx : x < 4294967296) : x ^^^ (x >>> k) < 4294967296 :=
  xor_lt_u32 hx (lt_of_le_of_lt (shiftRight_le' x k) hx)

/-- Injectivity of `x ↦ x ^^^ (x >>> k)` on 32-bit values, for `k ≥ 1`
(downward induction from the high bits). -/
lemma xorshift_inj {k : ℕ} (hk : 1 ≤ k) {a b : ℕ}
    (ha : a < 4294967296) (hb : b < 4294967296)
    (h : a ^^^ (a >>> k) = b ^^^ (b >>> k)) : a = b := by
  have hM : (4294967296 : ℕ) = 2 ^ 32 := by norm_num
  rw [hM] at ha hb
  apply Nat.eq_of_testBit_eq
  suffices H : ∀ d i, 32 ≤ i + d → a.testBit i = b.testBit i by
    intro i
    exact H 32 i (by omega)
  intro d
  induction d with
  | zero =>
    intro i hi
    have hia : a.testBit i = false :=
      Nat.testBit_lt_two_pow (lt_of_lt_of_le ha (Nat.pow_le_pow_right (by norm_num) (by omega)))
    have hib : b.testBit i = false :=
      Nat.testBit_lt_two_pow (lt_of_lt_of_le hb (Nat.pow_le_pow_right (by norm_num) (by omega)))
    rw [hia, hib]
  | succ d ih =>
    intro i hi
    by_cases h32 : 32 ≤ i
    · have hia : a.testBit i = false :=
        Nat.testBit_lt_two_pow (lt_of_lt_of_le ha (Nat.pow_le_pow_right (by norm_num) h32))
      have hib : b.testBit i = false :=
        Nat.testBit_lt_two_pow (lt_of_lt_of_le hb (Nat.pow_le_pow_right (by norm_num) h32))
      rw [hia, hib]
    · have hbit := congrArg (fun x => x.testBit i) h
      simp only [Nat.testBit_xor, Nat.testBit_shiftRight] at hbit
      have hk' : a.testBit (k + i) = b.testBit (k + i) := ih (k + i) (by omega)
      rw [hk'] at hbit
      rcases h1 : b.testBit (k + i) with _ | _ <;> rw [h1] at hbit <;> simpa using hbit

/-- Injectivity of `Math.imul(·, c)` on 32-bit values when `ci` is a
modular inverse of `c`. -/
lemma imul_const_inj {c ci : ℕ} (hci : (c * ci) % 4294967296 = 1) {a b : ℕ}
    (ha : a < 4294967296) (hb : b < 4294967296) (h : imul32 a c = imul32 b c) : a = b := by
  have h1 : a * c ≡ b * c [MOD 4294967296] := h
  have h2 := h1.mul_right ci
  have h3 : c * ci ≡ 1 [MOD 4294967296] := by
    show (c * ci) % 4294967296 = 1 % 4294967296
    simpa using hci
  have e1 : a * (c * ci) ≡ a * 1 [MOD 4294967296] := Nat.ModEq.mul_left a h3
  have e2 : b * (c * ci) ≡ b * 1 [MOD 4294967296] := Nat.ModEq.mul_left b h3
  have h4 : a ≡ b [MOD 4294967296] := by
    calc a = a * 1 := (mul_one a).symm
      _ ≡ a * (c * ci) [MOD 4294967296] := e1.symm
      _ = a * c * ci := by ring
      _ ≡ b * c * ci [MOD 4294967296] := h2
      _ = b * (c * ci) := by ring
      _ ≡ b * 1 [MOD 4294967296] := e2
      _ = b := mul_one b
  have h5 : a % 4294967296 = b % 4294967296 := h4
  rwa [Nat.mod_eq_of_lt ha, Nat.mod_eq_of_lt hb] at h5

/-- Injectivity of the Murmur-style finalizer of `mixSeed` on 32-bit
inputs. -/
lemma mixFinalizer_inj {x0 y0 : ℕ} (hx : x0 < 4294967296) (hy : y0 < 4294967296)
    (h : (imul32 (imul32 (x0 ^^^ (x0 >>> 16)) 0x85ebca6b ^^^
            (imul32 (x0 ^^^ (x0 >>> 16)) 0x85ebca6b >>> 13)) 0xc2b2ae35 ^^^
          (imul32 (imul32 (x0 ^^^ (x0 >>> 16)) 0x85ebca6b ^^^
            (imul32 (x0 ^^^ (x0 >>> 16)) 0x85ebca6b >>> 13)) 0xc2b2ae35 >>> 16)) % 4294967296 =
         (imul32 (imul32 (y0 ^^^ (y0 >>> 16)) 0x85ebca6b ^^^
            (imul32 (y0 ^^^ (y0 >>> 16)) 0x85ebca6b >>> 13)) 0xc2b2ae35 ^^^
          (imul32 (imul32 (y0 ^^^ (y0 >>> 16)) 0x85ebca6b ^^^
            (imul32 (y0 ^^^ (y0 >>> 16)) 0x85ebca6b >>> 13)) 0xc2b2ae35 >>> 16)) % 4294967296) :
    x0 = y0 := by
  have hx1 : imul32 (x0 ^^^ (x0 >>> 16)) 0x85ebca6b < 4294967296 := Nat.mod_lt _ (by norm_num)
  have hy1 : imul32 (y0 ^^^ (y0 >>> 16)) 0x85ebca6b < 4294967296 := Nat.mod_lt _ (by norm_num)
  have hx2 : imul32 (imul32 (x0 ^^^ (x0 >>> 16)) 0x85ebca6b ^^^
      (imul32 (x0 ^^^ (x0 >>> 16)) 0x85ebca6b >>> 13)) 0xc2b2ae35 < 4294967296 :=
    Nat.mod_lt _ (by norm_num)
  have hy2 : imul32 (imul32 (y0 ^^^ (y0 >>> 16)) 0x85ebca6b ^^^
      (imul32 (y0 ^^^ (y0 >>> 16)) 0x85ebca6b >>> 13)) 0xc2b2ae35 < 4294967296 :=
    Nat.mod_lt _ (by norm_num)
  rw [Nat.mod_eq_of_lt (xorshift_lt hx2), Nat.mod_eq_of_lt (xorshift_lt hy2)] at h
  have e2 := xorshift_inj (by norm_num) hx2 hy2 h
  have e1 := xorshift_inj (by norm_num) hx1 hy1
    (imul_const_inj (by norm_num : (0xc2b2ae35 * 2127672349) % 4294967296 = 1)
      (xorshift_lt hx1) (xorshift_lt hy1) e2)
  exact xorshift_inj (by norm_num) hx hy
    (imul_const_inj (by norm_num : (0x85ebca6b * 2781581891) % 4294967296 = 1)
      (xorshift_lt hx) (xorshift_lt hy) e1)

/-- `mixSeed` is injective in its state argument (on 32-bit states). -/
lemma mixSeed_inj_state {s t : ℕ} (v : ℕ) (hs : s < 4294967296) (ht : t < 4294967296)
    (h : mixSeed s v = mixSeed t v) : s = t := by
  have h0 := mixFinalizer_inj (xor_lt_u32 (natU32_lt s) (natU32_lt v))
    (xor_lt_u32 (natU32_lt t) (natU32_lt v)) h
  have h1 : natU32 s = natU32 t := Nat.xor_left_injective h0
  rwa [show natU32 s = s from Nat.mod_eq_of_lt hs,
       show natU32 t = t from Nat.mod_eq_of_lt ht] at h1

/-- `mixSeed` is injective in its value argument (distinct mod `2^32`). -/
lemma mixSeed_inj_val {v w : ℕ} (s : ℕ) (hv : natU32 v ≠ natU32 w) :
    mixSeed s v ≠ mixSeed s w := by
  intro h
  have h0 := mixFinalizer_inj (xor_lt_u32 (natU32_lt s) (natU32_lt v))
    (xor_lt_u32 (natU32_lt s) (natU32_lt w)) h
  exact hv (Nat.xor_right_injective h0)

lemma toU32_natCast (n : ℕ) : toU32 (n : ℤ) = n % 4294967296 := by
  unfold toU32
  omega

/-- **C7** — Per-drop seed uniqueness: the per-drop item seed folds
(run seed, the fixed tag `'ITEM'`, the per-run serial counter, the
integer-truncated kill position, the depth) through `seedFromParts`; for
two drops with identical run seed, position and depth but serial counters
that differ modulo `2^32`, the derived 32-bit seeds are never equal
(every stage of the `mixSeed` chain is a bijection of 32-bit values). -/
theorem claim_C7_item_seed_injective (runSeed s1 s2 : ℕ) (kx ky : ℚ) (depth : ℕ)
    (h : s1 % 4294967296 ≠ s2 % 4294967296) :
    Bullets.itemSeedOf runSeed s1 kx ky depth ≠ Bullets.itemSeedOf runSeed s2 kx ky depth := by
  intro heq
  unfold Bullets.itemSeedOf seedFromParts at heq
  simp only [List.foldl, partToU32] at heq
  rw [show natU32 (mixSeed (mixSeed (mixSeed (mixSeed (mixSeed (mixSeed 0xA5A5A5A5
        (toU32 (runSeed : ℤ))) (strHash "ITEM")) (toU32 (s1 : ℤ))) (toU32 (jsOr0 kx)))
        (toU32 (jsOr0 ky))) (toU32 (depth : ℤ)))
      = mixSeed (mixSeed (mixSeed (mixSeed (mixSeed (mixSeed 0xA5A5A5A5
        (toU32 (runSeed : ℤ))) (strHash "ITEM")) (toU32 (s1 : ℤ))) (toU32 (jsOr0 kx)))
        (toU32 (jsOr0 ky))) (toU32 (depth : ℤ))
      from Nat.mod_eq_of_lt (mixSeed_lt _ _),
      show natU32 (mixSeed (mixSeed (mixSeed (mixSeed (mixSeed (mixSeed 0xA5A5A5A5
        (toU32 (runSeed : ℤ))) (strHash "ITEM")) (toU32 (s2 : ℤ))) (toU32 (jsOr0 kx)))
        (toU32 (jsOr0 ky))) (toU32 (depth : ℤ)))
      = mixSeed (mixSeed (mixSeed (mixSeed (mixSeed (mixSeed 0xA5A5A5A5
        (toU32 (runSeed : ℤ))) (strHash "ITEM")) (toU32 (s2 : ℤ))) (toU32 (jsOr0 kx)))
        (toU32 (jsOr0 ky))) (toU32 (depth : ℤ))
      from Nat.mod_eq_of_lt (mixSeed_lt _ _)] at heq
  have e1 := mixSeed_inj_state _ (mixSeed_lt _ _) (mixSeed_lt _ _) heq
  have e2 := mixSeed_inj_state _ (mixSeed_lt _ _) (mixSeed_lt _ _) e1
  have e3 := mixSeed_inj_state _ (mixSeed_lt _ _) (mixSeed_lt _ _) e2
  have hv : natU32 (toU32 (s1 : ℤ)) ≠ natU32 (toU32 (s2 : ℤ)) := by
    rw [toU32_natCast, toU32_natCast]
    unfold natU32
    omega
  exact mixSeed_inj_val _ hv e3

/-- Witness for C7: serial counters 0 and 1 at a fixed position/depth. -/
theorem claim_C7_item_seed_injective_witness :
    ((0 : ℕ) % 4294967296 ≠ (1 : ℕ) % 4294967296) ∧
    Bullets.itemSeedOf 7 0 10 (-20) 5 ≠ Bullets.itemSeedOf 7 1 10 (-20) 5 :=
  ⟨by norm_num, claim_C7_item_seed_injective 7 0 1 10 (-20) 5 (by norm_num)⟩

/-! ## Rejection-sampling invariants (C5) -/

lemma distSqLt_false_sqrt {dx dy r : ℚ} (hr : 0 < r) (h : distSqLt dx dy r = false) :
    (r : ℝ) ≤ Real.sqrt ((dx : ℝ) ^ 2 + (dy : ℝ) ^ 2) := by
  unfold distSqLt at h
  rw [decide_eq_false_iff_not] at h
  push_neg at h
  have h2 : r ^ 2 ≤ dx ^ 2 + dy ^ 2 := h hr
  have h3 : ((r : ℝ)) ^ 2 ≤ (dx : ℝ) ^ 2 + (dy : ℝ) ^ 2 := by exact_mod_cast h2
  have hr' : (0 : ℝ) ≤ (r : ℝ) := by exact_mod_cast le_of_lt hr
  rw [show (r : ℝ) = Real.sqrt ((r : ℝ) ^ 2) from (Real.sqrt_sq hr').symm]
  exact Real.sqrt_le_sqrt h3

lemma minBetweenOf_pos (layout : String) : 0 < MapGenerator.minBetweenOf layout := by
  unfold MapGenerator.minBetweenOf
  split_ifs <;> norm_num

lemma genEnemyGo_inv (pool : List String) (w h : ℚ) (sp ex : ℚ × ℚ) (layout : String)
    (count : ℤ) : ∀ (fuel : ℕ) (acc : List SpawnDesc) (g : SR),
    (∀ s ∈ acc, distSqLt (s.x - sp.1) (s.y - sp.2) 300 = false ∧
                distSqLt (s.x - ex.1) (s.y - ex.2) 200 = false) →
    acc.Pairwise (fun a b =>
      distSqLt (b.x - a.x) (b.y - a.y) (MapGenerator.minBetweenOf layout) = false) →
    ((∀ s ∈ (MapGenerator.genEnemyGo pool w h sp ex layout count fuel acc g).1,
        distSqLt (s.x - sp.1) (s.y - sp.2) 300 = false ∧
        distSqLt (s.x - ex.1) (s.y - ex.2) 200 = false) ∧
      ((MapGenerator.genEnemyGo pool w h sp ex layout count fuel acc g).1).Pairwise
        (fun a b =>
          distSqLt (b.x - a.x) (b.y - a.y) (MapGenerator.minBetweenOf layout) = false)) := by
  intro fuel
  induction fuel with
  | zero =>
    intro acc g hAll hPw
    exact ⟨hAll, hPw⟩
  | succ k ih =>
    intro acc g hAll hPw
    simp only [MapGenerator.genEnemyGo]
    split_ifs
    all_goals
      first
        | exact ⟨hAll, hPw⟩
        | exact ih _ _ hAll hPw
        | (rename_i hd1 hd2 hd3
           rw [List.any_eq_true] at hd3
           push_neg at hd3
           refine ih _ _ ?_ ?_
           · intro s hs
             rcases List.mem_append.mp hs with hs' | hs'
             · exact hAll s hs'
             · rw [List.mem_singleton] at hs'
               subst hs'
               exact ⟨by simpa using hd1, by simpa using hd2⟩
           · rw [List.pairwise_append]
             refine ⟨hPw, List.pairwise_singleton _ _, ?_⟩
             intro a ha b hb
             rw [List.mem_singleton] at hb
             subst hb
             simpa using hd3 a ha)

/-- **C5** — Rejection-sampling termination and guarantees: enemy spawn
placement runs at most `3 × target` candidate attempts (the first
conjunct exhibits the loop with exactly that fuel, `target =
floor(w·h·density)`), never accepts more than `target` points, and every
accepted point lies at least 300 units from the zone spawn point, at
least 200 units from the exit point, and at least the layout's minimum
separation from every previously accepted point (Euclidean distances). -/
theorem claim_C5_rejection_sampling (g : SR) (pool : List String) (density w h : ℚ)
    (sp ex : ℚ × ℚ) (layout : String) :
    (MapGenerator.generateEnemySpawns g pool density w h sp ex layout
      = MapGenerator.genEnemyGo pool w h sp ex layout ⌊w * h * density⌋
          (3 * ⌊w * h * density⌋).toNat [] g) ∧
    ((MapGenerator.generateEnemySpawns g pool density w h sp ex layout).1).length
      ≤ (⌊w * h * density⌋).toNat ∧
    (∀ p ∈ (MapGenerator.generateEnemySpawns g pool density w h sp ex layout).1,
      (300 : ℝ) ≤ Real.sqrt (((p.x - sp.1 : ℚ) : ℝ) ^ 2 + ((p.y - sp.2 : ℚ) : ℝ) ^ 2) ∧
      (200 : ℝ) ≤ Real.sqrt (((p.x - ex.1 : ℚ) : ℝ) ^ 2 + ((p.y - ex.2 : ℚ) : ℝ) ^ 2)) ∧
    ((MapGenerator.generateEnemySpawns g pool density w h sp ex layout).1).Pairwise
      (fun a b => ((MapGenerator.minBetweenOf layout : ℚ) : ℝ)
        ≤ Real.sqrt (((b.x - a.x : ℚ) : ℝ) ^ 2 + ((b.y - a.y : ℚ) : ℝ) ^ 2)) := by
  obtain ⟨hAll, hPw⟩ := genEnemyGo_inv pool w h sp ex layout ⌊w * h * density⌋
    (3 * ⌊w * h * density⌋).toNat [] g (by simp) List.Pairwise.nil
  refine ⟨rfl, generateEnemySpawns_length_le g pool density w h sp ex layout, ?_, ?_⟩
  · intro p hp
    obtain ⟨h1, h2⟩ := hAll p hp
    exact ⟨distSqLt_false_sqrt (by norm_num) h1, distSqLt_false_sqrt (by norm_num) h2⟩
  · refine List.Pairwise.imp ?_ hPw
    intro a b hab
    exact distSqLt_false_sqrt (minBetweenOf_pos layout) hab

/-! ## Spatial-index soundness (C6) -/

lemma bumpCell_lookup_self {α : Type} (cells : List (ℕ × List α)) (k : ℕ) (a : α) :
    a ∈ (((SpawnGrid.bumpCell cells k a).lookup k).getD []) := by
  induction cells with
  | nil => simp [SpawnGrid.bumpCell, List.lookup]
  | cons p t ih =>
    obtain ⟨k', l⟩ := p
    simp only [SpawnGrid.bumpCell]
    split_ifs with he
    · subst he
      simp [List.lookup]
    · have hne : (k == k') = false := by
        simp only [beq_eq_false_iff_ne, ne_eq]
        exact fun hkk => he hkk.symm
      simpa [List.lookup, hne] using ih

lemma bumpCell_lookup_preserve {α : Type} (cells : List (ℕ × List α)) (k0 k : ℕ)
    (c b : α) (h : b ∈ ((cells.lookup k).getD [])) :
    b ∈ (((SpawnGrid.bumpCell cells k0 c).lookup k).getD []) := by
  induction cells with
  | nil => simp [List.lookup] at h
  | cons p t ih =>
    obtain ⟨k', l⟩ := p
    simp only [SpawnGrid.bumpCell]
    split_ifs with he
    · by_cases hkk : k = k'
      · subst hkk
        simp only [List.lookup, beq_self_eq_true] at h ⊢
        simp only [Option.getD_some] at h ⊢
        exact List.mem_append.mpr (Or.inl h)
      · have hne : (k == k') = false := by simpa [beq_eq_false_iff_ne]
        simp only [List.lookup, hne] at h ⊢
        exact h
    · by_cases hkk : k = k'
      · subst hkk
        simp only [List.lookup, beq_self_eq_true] at h ⊢
        exact h
      · have hne : (k == k') = false := by simpa [beq_eq_false_iff_ne]
        simp only [List.lookup, hne] at h ⊢
        exact ih h

lemma insert_cellSize {α : Type} (g : SpawnGrid α) (x y : ℚ) (a : α) :
    (g.insert x y a).cellSize = g.cellSize := rfl

lemma foldl_insert_preserve {α : Type} (pos : α → ℚ × ℚ) (k : ℕ) (b : α) :
    ∀ (items : List α) (gs : SpawnGrid α), b ∈ ((gs.cells.lookup k).getD []) →
    b ∈ ((((items.foldl (fun gr x => gr.insert (pos x).1 (pos x).2 x) gs)).cells.lookup k).getD []) := by
  intro items
  induction items with
  | nil => intro gs hmem; simpa using hmem
  | cons c t ih =>
    intro gs hmem
    simp only [List.foldl_cons]
    exact ih _ (bumpCell_lookup_preserve gs.cells _ k c b hmem)

lemma foldl_insert_cellSize {α : Type} (pos : α → ℚ × ℚ) :
    ∀ (items : List α) (gs : SpawnGrid α),
    ((items.foldl (fun gr x => gr.insert (pos x).1 (pos x).2 x) gs)).cellSize = gs.cellSize := by
  intro items
  induction items with
  | nil => intro gs; rfl
  | cons c t ih =>
    intro gs
    simp only [List.foldl_cons]
    exact ih _

lemma build_cellSize {α : Type} (g0 : SpawnGrid α) (items : List α) (pos : α → ℚ × ℚ) :
    (SpawnGrid.build g0 items pos).cellSize = g0.cellSize := by
  unfold SpawnGrid.build
  exact foldl_insert_cellSize pos items g0.clear

lemma build_mem {α : Type} (g0 : SpawnGrid α) (items : List α) (pos : α → ℚ × ℚ)
    (a : α) (ha : a ∈ items) :
    a ∈ ((((SpawnGrid.build g0 items pos)).cells.lookup
        (SpawnGrid.key (SpawnGrid.cellCoord g0.cellSize (pos a).1)
                       (SpawnGrid.cellCoord g0.cellSize (pos a).2))).getD []) := by
  unfold SpawnGrid.build
  have main : ∀ (its : List α) (gs : SpawnGrid α), gs.cellSize = g0.cellSize → a ∈ its →
      a ∈ ((((its.foldl (fun gr x => gr.insert (pos x).1 (pos x).2 x) gs)).cells.lookup
          (SpawnGrid.key (SpawnGrid.cellCoord g0.cellSize (pos a).1)
                         (SpawnGrid.cellCoord g0.cellSize (pos a).2))).getD []) := by
    intro its
    induction its with
    | nil => intro gs _ hm; simp at hm
    | cons b t ih =>
      intro gs hcs hm
      rcases List.mem_cons.mp hm with rfl | hm'
      · simp only [List.foldl_cons]
        apply foldl_insert_preserve
        show a ∈ (((SpawnGrid.bumpCell gs.cells
            (SpawnGrid.key (SpawnGrid.cellCoord gs.cellSize (pos a).1)
                           (SpawnGrid.cellCoord gs.cellSize (pos a).2)) a).lookup
            (SpawnGrid.key (SpawnGrid.cellCoord g0.cellSize (pos a).1)
                           (SpawnGrid.cellCoord g0.cellSize (pos a).2))).getD [])
        rw [hcs]
        exact bumpCell_lookup_self gs.cells _ a
      · simp only [List.foldl_cons]
        exact ih _ (by rw [insert_cellSize]; exact hcs) hm'
  exact main items g0.clear rfl ha

lemma mem_intRange {a b z : ℤ} (h1 : a ≤ z) (h2 : z ≤ b) : z ∈ SpawnGrid.intRange a b := by
  unfold SpawnGrid.intRange
  simp only [List.mem_map, List.mem_range]
  exact ⟨(z - a).toNat, by omega, show a + ((z - a).toNat : ℤ) = z by omega⟩

lemma mem_query_of_memCell {α : Type} (g : SpawnGrid α) (x y r : ℚ) (cx cy : ℤ) (a : α)
    (hx1 : SpawnGrid.cellCoord g.cellSize (x - r) ≤ cx)
    (hx2 : cx ≤ SpawnGrid.cellCoord g.cellSize (x + r))
    (hy1 : SpawnGrid.cellCoord g.cellSize (y - r) ≤ cy)
    (hy2 : cy ≤ SpawnGrid.cellCoord g.cellSize (y + r))
    (hm : a ∈ ((g.cells.lookup (SpawnGrid.key cx cy)).getD [])) :
    a ∈ g.query x y r := by
  unfold SpawnGrid.query
  rw [List.mem_flatMap]
  refine ⟨cx, mem_intRange hx1 hx2, ?_⟩
  rw [List.mem_flatMap]
  exact ⟨cy, mem_intRange hy1 hy2, hm⟩

lemma cellCoord_mono {cs : ℤ} (hcs : 0 < cs) {u v : ℚ} (h : u ≤ v) :
    SpawnGrid.cellCoord cs u ≤ SpawnGrid.cellCoord cs v := by
  unfold SpawnGrid.cellCoord
  apply Int.floor_le_floor
  have hcs' : (0 : ℚ) < (cs : ℚ) := by exact_mod_cast hcs
  exact (div_le_div_iff_of_pos_right hcs').mpr h

lemma new_cellSize_pos (α : Type) (cs : ℚ) : 0 < (SpawnGrid.new α cs).cellSize :=
  lt_of_lt_of_le (by norm_num) (le_max_left 64 _)

/-- **C6** — Spatial-index soundness: for every element inserted via
`build`, every query point `(x, y)` and radius `r`, `query x y r` returns
a superset of the elements whose exact Euclidean distance to `(x, y)` at
their insertion position is at most `r` (the grid over-approximates the
circular query; callers still apply the exact distance test). -/
theorem claim_C6_grid_superset {α : Type} (cs : ℚ) (items : List α) (pos : α → ℚ × ℚ)
    (x y r : ℚ) (a : α) (ha : a ∈ items)
    (hd : Real.sqrt ((((pos a).1 - x : ℚ) : ℝ) ^ 2 + (((pos a).2 - y : ℚ) : ℝ) ^ 2) ≤ (r : ℝ)) :
    a ∈ (SpawnGrid.build (SpawnGrid.new α cs) items pos).query x y r := by
  have hsum_nonneg : (0 : ℝ) ≤ (((pos a).1 - x : ℚ) : ℝ) ^ 2 + (((pos a).2 - y : ℚ) : ℝ) ^ 2 := by
    positivity
  have hr0 : (0 : ℝ) ≤ (r : ℝ) := le_trans (Real.sqrt_nonneg _) hd
  have hsq : (((pos a).1 - x : ℚ) : ℝ) ^ 2 + (((pos a).2 - y : ℚ) : ℝ) ^ 2 ≤ (r : ℝ) ^ 2 := by
    have hss := Real.sq_sqrt hsum_nonneg
    nlinarith [Real.sqrt_nonneg ((((pos a).1 - x : ℚ) : ℝ) ^ 2 + (((pos a).2 - y : ℚ) : ℝ) ^ 2)]
  have hsq' : ((pos a).1 - x) ^ 2 + ((pos a).2 - y) ^ 2 ≤ r ^ 2 := by exact_mod_cast hsq
  have hr0' : (0 : ℚ) ≤ r := by exact_mod_cast hr0
  have hx1 : x - r ≤ (pos a).1 := by nlinarith [sq_nonneg ((pos a).2 - y)]
  have hx2 : (pos a).1 ≤ x + r := by nlinarith [sq_nonneg ((pos a).2 - y)]
  have hy1 : y - r ≤ (pos a).2 := by nlinarith [sq_nonneg ((pos a).1 - x)]
  have hy2 : (pos a).2 ≤ y + r := by nlinarith [sq_nonneg ((pos a).1 - x)]
  have hcs0 : 0 < (SpawnGrid.new α cs).cellSize := new_cellSize_pos α cs
  have hcsb : (SpawnGrid.build (SpawnGrid.new α cs) items pos).cellSize
      = (SpawnGrid.new α cs).cellSize := build_cellSize _ items pos
  apply mem_query_of_memCell _ x y r
    (SpawnGrid.cellCoord (SpawnGrid.new α cs).cellSize (pos a).1)
    (SpawnGrid.cellCoord (SpawnGrid.new α cs).cellSize (pos a).2) a
  · rw [hcsb]; exact cellCoord_mono hcs0 hx1
  · rw [hcsb]; exact cellCoord_mono hcs0 hx2
  · rw [hcsb]; exact cellCoord_mono hcs0 hy1
  · rw [hcsb]; exact cellCoord_mono hcs0 hy2
  · exact build_mem (SpawnGrid.new α cs) items pos a ha

/-- Witness for C6: one spawn at the origin, queried at the origin with
radius 1. -/
theorem claim_C6_grid_superset_witness :
    ((0, 0) ∈ [((0 : ℚ), (0 : ℚ))]) ∧
    ((0, 0) ∈ (SpawnGrid.build (SpawnGrid.new (ℚ × ℚ) 600) [((0 : ℚ), (0 : ℚ))]
        (fun p => p)).query 0 0 1) :=
  ⟨by simp, claim_C6_grid_superset 600 [((0 : ℚ), (0 : ℚ))] (fun p => p) 0 0 1 (0, 0)
    (by simp)
    (by norm_num [Real.sqrt_zero])⟩

/-! ## Boss-zone determination (C4) -/

lemma genBossZone_isBossZone (jm : JsMath) (cfg : ActConfig) (s : ℕ) (o : GenOpts) :
    (MapGenerator.generateBossZone jm cfg s o).isBossZone = true := rfl

lemma genBossZone_bossSpawn_isSome (jm : JsMath) (cfg : ActConfig) (s : ℕ) (o : GenOpts) :
    (MapGenerator.generateBossZone jm cfg s o).bossSpawn.isSome = true := rfl

lemma genBossZone_enemySpawns (jm : JsMath) (cfg : ActConfig) (s : ℕ) (o : GenOpts) :
    (MapGenerator.generateBossZone jm cfg s o).enemySpawns = [] := rfl

lemma genBossZone_eliteSpawns (jm : JsMath) (cfg : ActConfig) (s : ℕ) (o : GenOpts) :
    (MapGenerator.generateBossZone jm cfg s o).eliteSpawns = [] := rfl

lemma generate_isBossZone (jm : JsMath) (cfg : ActConfig) (s : ℕ) (o : GenOpts) :
    (MapGenerator.generate jm cfg s o).isBossZone = false := rfl

lemma generate_bossSpawn (jm : JsMath) (cfg : ActConfig) (s : ℕ) (o : GenOpts) :
    (MapGenerator.generate jm cfg s o).bossSpawn = none := rfl

/-- **C4** — A loaded zone is a boss zone exactly when
`depth % bossInterval == 0` (depth = index + 1; `bossInterval` is the
act's configured zone count when that is a positive number, else 4); a
boss zone carries a non-null `bossSpawn` and empty
`enemySpawns`/`eliteSpawns`, and a non-boss zone has no `bossSpawn`.
With `bossInterval = 4` this specializes to: depth 1 is non-boss and
depth 4 is boss (see the witness). -/
theorem claim_C4_boss_zone_iff (jm : JsMath) (st : GameSt) (index : ℕ) (ar : ActRt)
    (hact : st.currentAct = some ar) :
    ∃ z, (World.loadZone jm st index).currentZone = some z ∧
      (z.isBossZone = true ↔ (((index + 1 : ℕ) : ℤ) % World.bossIntervalOf ar.config = 0)) ∧
      (z.isBossZone = true → z.bossSpawn.isSome ∧ z.enemySpawns = [] ∧ z.eliteSpawns = []) ∧
      (z.isBossZone = false → z.bossSpawn = none) := by
  simp only [World.loadZone, hact]
  by_cases hb : (((index + 1 : ℕ) : ℤ) % World.bossIntervalOf ar.config = 0)
  · have hbd : decide (((index + 1 : ℕ) : ℤ) % World.bossIntervalOf ar.config = 0) = true :=
      decide_eq_true hb
    simp only [hbd, eq_self_iff_true, if_true]
    refine ⟨_, rfl, ?_, ?_, ?_⟩
    · exact iff_of_true (by simp [genBossZone_isBossZone]) hb
    · intro _
      exact ⟨by simp [genBossZone_bossSpawn_isSome], by simp [genBossZone_enemySpawns],
        by simp [genBossZone_eliteSpawns]⟩
    · intro hfalse
      simp [genBossZone_isBossZone] at hfalse
  · have hbd : decide (((index + 1 : ℕ) : ℤ) % World.bossIntervalOf ar.config = 0) = false :=
      decide_eq_false hb
    have hfe : (false = true) = False := by simp
    simp only [hbd, hfe, if_false]
    refine ⟨_, rfl, ?_, ?_, ?_⟩
    · exact iff_of_false (by simp [generate_isBossZone]) hb
    · intro htrue
      simp [generate_isBossZone] at htrue
    · intro _
      simp [generate_bossSpawn]

/-- Witness for C4 at a four-zone act: depth 1 (index 0) non-boss, depth
4 (index 3) boss. -/
theorem claim_C4_boss_zone_iff_witness :
    (stAct4.currentAct = some actRt4) ∧
    (∃ z, (World.loadZone jm0 stAct4 0).currentZone = some z ∧
      (z.isBossZone = true ↔ (((0 + 1 : ℕ) : ℤ) % World.bossIntervalOf actRt4.config = 0)) ∧
      (z.isBossZone = true → z.bossSpawn.isSome ∧ z.enemySpawns = [] ∧ z.eliteSpawns = []) ∧
      (z.isBossZone = false → z.bossSpawn = none)) ∧
    (∃ z, (World.loadZone jm0 stAct4 3).currentZone = some z ∧
      (z.isBossZone = true ↔ (((3 + 1 : ℕ) : ℤ) % World.bossIntervalOf actRt4.config = 0)) ∧
      (z.isBossZone = true → z.bossSpawn.isSome ∧ z.enemySpawns = [] ∧ z.eliteSpawns = []) ∧
      (z.isBossZone = false → z.bossSpawn = none)) :=
  ⟨rfl, claim_C4_boss_zone_iff jm0 stAct4 0 actRt4 rfl,
    claim_C4_boss_zone_iff jm0 stAct4 3 actRt4 rfl⟩

/-! ## Boss despawn behaviour (C3) -/

lemma flatMap_const_nil {α β : Type} (l : List α) :
    (l.flatMap (fun _ => ([] : List β))) = [] := by
  induction l with
  | nil => rfl
  | cons a t ih => simp [ih]

lemma query_cells_nil {α : Type} (g : SpawnGrid α) (h : g.cells = []) (x y r : ℚ) :
    g.query x y r = [] := by
  unfold SpawnGrid.query
  rw [h]
  simp [List.lookup, flatMap_const_nil]

/-- **C3 (counterexample)** — The claim "once materialized, no per-tick
update ever despawns the boss" is false on the code: in the state
`stBossFar` (a boss zone, boss materialized and `active`, player 2000
units away, beyond `despawnRadius = 1200`), a single `World.update` tick
resets the boss descriptor's `active` flag to `false` through the
distance-based despawn path (the despawn loop has no boss exclusion). -/
theorem claim_C3_boss_despawn_counterexample :
    ((stBossFar.currentZone.bind Zone.bossSpawn).map SpawnDesc.active = some true) ∧
    (((World.update jm0 stBossFar 0.016).currentZone.bind Zone.bossSpawn).map
        SpawnDesc.active = some false) := by
  constructor
  · with_unfolding_all rfl
  · with_unfolding_all rfl

/-- **C3 (amended)** — Boss materialization and despawn: (1) a
materialized boss *is* despawned by the distance-based despawn path:
whenever the boss entity is active and the player's distance to it
exceeds `despawnRadius`, one `update` tick resets the descriptor's
`active` flag to `false` (leaving `killed` false, so the boss can
re-materialize); (2) a dormant, unkilled boss within `1.5 × spawnRadius`
of the player is materialized by one `update` tick.  (The state shape
hypotheses — empty spawn lists, no exit, no portals — are exactly the
shape of zones produced by `generateBossZone`.) -/
theorem claim_C3_boss_despawn_amended :
    (∀ (jm : JsMath) (st : GameSt) (dt : ℚ) (z : Zone) (bs : SpawnDesc) (eid : ℕ)
      (en : Enemy),
      st.currentZone = some z →
      z.enemySpawns = [] → z.eliteSpawns = [] → z.portals = [] → z.exit = none →
      z.bossSpawn = some bs → bs.active = true → bs.killed = false →
      st.activeEnemies = [eid] →
      st.entities.lookup eid = some en →
      en.dead = false → en.spawnRef = some SpawnRef.boss →
      (∃ g, st.enemyGrid = some g ∧ g.cells = []) →
      (∃ g, st.eliteGrid = some g ∧ g.cells = []) →
      distSqGt (st.player.x - en.x) (st.player.y - en.y) st.despawnRadius = true →
      distSqLt (st.player.x - bs.x) (st.player.y - bs.y) (st.spawnRadius * 1.5) = false →
      ((World.update jm st dt).currentZone.bind Zone.bossSpawn).map SpawnDesc.active
        = some false ∧
      ((World.update jm st dt).currentZone.bind Zone.bossSpawn).map SpawnDesc.killed
        = some false) ∧
    (∀ (jm : JsMath) (st : GameSt) (dt : ℚ) (z : Zone) (bs : SpawnDesc),
      st.currentZone = some z →
      z.enemySpawns = [] → z.eliteSpawns = [] → z.portals = [] → z.exit = none →
      z.bossSpawn = some bs → bs.active = false → bs.killed = false →
      st.activeEnemies = [] → st.entities = [] →
      (∃ g, st.enemyGrid = some g ∧ g.cells = []) →
      (∃ g, st.eliteGrid = some g ∧ g.cells = []) →
      distSqLt (st.player.x - bs.x) (st.player.y - bs.y) (st.spawnRadius * 1.5) = true →
      ((World.update jm st dt).currentZone.bind Zone.bossSpawn).map SpawnDesc.active
        = some true) := by
  constructor
  · intro jm st dt z bs eid en hz hes hels hpor hex hbs hba hbk hae hlk hdead hsr heg hlg
      hfar hnear
    obtain ⟨g1, hg1, hc1⟩ := heg
    obtain ⟨g2, hg2, hc2⟩ := hlg
    simp [World.update, hz, hg1, hg2, query_cells_nil _ hc1, query_cells_nil _ hc2,
      hae, World.despawnStep, hlk, hdead, hsr, World.getRef, hbs, hba, hfar,
      World.despawnEnemy, World.setRef, World.bossPass, hbk, hnear,
      World.exitPass, hex, World.portalPass, hpor, World.patrolStep, hels, hes]
  · intro jm st dt z bs hz hes hels hpor hex hbs hba hbk hae hent heg hlg hnear
    obtain ⟨g1, hg1, hc1⟩ := heg
    obtain ⟨g2, hg2, hc2⟩ := hlg
    simp [World.update, hz, hg1, hg2, query_cells_nil _ hc1, query_cells_nil _ hc2,
      hae, hent, World.bossPass, hbs, hba, hbk, hnear, World.spawnBoss,
      World.exitPass, hex, World.portalPass, hpor, World.patrolStep, hels, hes,
      List.lookup]

/-- Witness for the amended C3 at the concrete states `stBossFar` (boss
despawned beyond `despawnRadius`) and `stBossNear` (boss materialized
within `1.5 × spawnRadius`). -/
theorem claim_C3_boss_despawn_amended_witness :
    (((World.update jm0 stBossFar 0.016).currentZone.bind Zone.bossSpawn).map
        SpawnDesc.active = some false ∧
     ((World.update jm0 stBossFar 0.016).currentZone.bind Zone.bossSpawn).map
        SpawnDesc.killed = some false) ∧
    (((World.update jm0 stBossNear 0.016).currentZone.bind Zone.bossSpawn).map
        SpawnDesc.active = some true) :=
  ⟨claim_C3_boss_despawn_amended.1 jm0 stBossFar 0.016 zoneBossOn bossDescOn 1 bossEnt
      rfl rfl rfl rfl rfl rfl rfl rfl rfl rfl rfl rfl
      ⟨⟨600, []⟩, rfl, rfl⟩ ⟨⟨600, []⟩, rfl, rfl⟩
      (by with_unfolding_all rfl) (by with_unfolding_all rfl),
   claim_C3_boss_despawn_amended.2 jm0 stBossNear 0.016 zoneBossOff
      { bossDescOn with active := false, enemyId := none }
      rfl rfl rfl rfl rfl rfl rfl rfl rfl rfl
      ⟨⟨600, []⟩, rfl, rfl⟩ ⟨⟨600, []⟩, rfl, rfl⟩
      (by with_unfolding_all rfl)⟩
